import Mathlib

/-!
Verification development for the statement-to-reality pipeline.

The Python services are shallowly embedded as executable Lean functions:
string processing is modelled over `List Char` (Python `str` methods such
as `lower`, `strip`, `split` and the `in` substring test are reimplemented
character by character), dictionaries become insertion-ordered association
lists, floats become rationals, fallible constructors and methods return
`Except`, and in-place mutation becomes explicit state passing.  Fields of
the source dataclasses that no modelled code path ever reads or writes
(`metadata`, `properties`, timestamps inside `metadata`) are omitted.
-/

/- ## String utilities (embeddings of the Python str methods used) -/

/-- Python `str.lower` (ASCII-level, as used on the keyword tables). -/
def lowerS (s : String) : String := String.mk (s.data.map Char.toLower)

/-- Helper for substring search: does `pat` occur at the head of `l`. -/
def subAt : List Char → List Char → Bool
  | [], _ => true
  | _ :: _, [] => false
  | a :: as, b :: bs => a == b && subAt as bs

/-- Helper for substring search over char lists. -/
def hasSubL (needle : List Char) : List Char → Bool
  | [] => needle.isEmpty
  | c :: cs => subAt needle (c :: cs) || hasSubL needle cs

/-- Python `needle in hay` substring test. -/
def hasSub (hay needle : String) : Bool := hasSubL needle.data hay.data

/-- Python `str.strip` over char lists. -/
def trimL (l : List Char) : List Char :=
  ((l.dropWhile Char.isWhitespace).reverse.dropWhile Char.isWhitespace).reverse

/-- Python `str.strip`. -/
def trimS (s : String) : String := String.mk (trimL s.data)

/-- Accumulator worker for `pySplitWs`. -/
def wsTokensAux : List Char → List Char → List String
  | [], acc => if acc.isEmpty then [] else [String.mk acc.reverse]
  | c :: cs, acc =>
    if c.isWhitespace then
      if acc.isEmpty then wsTokensAux cs [] else String.mk acc.reverse :: wsTokensAux cs []
    else wsTokensAux cs (c :: acc)

/-- Python `str.split()` with no argument: split on whitespace runs,
discarding empty tokens. -/
def pySplitWs (s : String) : List String := wsTokensAux s.data []

/-- Accumulator worker for `pySplitChar`. -/
def splitCharAux (sep : Char) : List Char → List Char → List String
  | [], acc => [String.mk acc.reverse]
  | c :: cs, acc =>
    if c == sep then String.mk acc.reverse :: splitCharAux sep cs []
    else splitCharAux sep cs (c :: acc)

/-- Python `str.split(sep)` for a one-character separator, keeping empty
pieces (`"".split(".") == [""]`). -/
def pySplitChar (s : String) (sep : Char) : List String := splitCharAux sep s.data []

/-- Python `" ".join` and friends. -/
def joinSep (sep : String) : List String → String
  | [] => ""
  | [s] => s
  | s :: rest => s ++ sep ++ joinSep sep rest

/-- Python `str.title()` restricted to the single lowercase words it is
applied to in the source. -/
def titleWord (s : String) : String :=
  match s.data with
  | [] => ""
  | c :: cs => String.mk (c.toUpper :: cs)

/-- Fuel-bounded replace-all worker (the fuel is the haystack length, which
suffices because each step consumes at least one character). -/
def replaceAux (pat sub : List Char) : Nat → List Char → List Char
  | 0, l => l
  | _ + 1, [] => []
  | fuel + 1, c :: cs =>
    if subAt pat (c :: cs) then
      sub ++ replaceAux pat sub fuel (List.drop (pat.length - 1) cs)
    else c :: replaceAux pat sub fuel cs

/-- Python `str.replace` (leftmost, all occurrences, non-empty pattern). -/
def replaceS (s pat sub : String) : String :=
  String.mk (replaceAux pat.data sub.data s.data.length s.data)

/- ## Data model (src/src/core/models.py) -/

/-- StatementType enum. -/
inductive StatementType
  | functional
  | non_functional
  | constraint
  | business_rule
  | evolution
deriving DecidableEq, Repr

/-- Statement dataclass.  `content` is always a string (a `None` content
would crash before reaching the validators); the other required fields can
be `None` in Python, which the `Option` wrappers model.  `confidence` is a
rational standing for the Python float. -/
structure Statement where
  content : String
  context : Option Unit
  timestamp : Option Unit
  speaker : Option String
  statement_type : Option StatementType
  confidence : ℚ := 0
deriving DecidableEq, Repr

/-- Conversation dataclass (metadata and timestamps omitted: no modelled
code path reads them). -/
structure Conversation where
  statements : List Statement
  conversation_id : String
deriving DecidableEq, Repr

/-- SystemRequirements dataclass.  `quality_attributes` is an association
list of truthiness flags; `extracted_entities` is the list form of the
Python set (its order is unspecified in the source, only membership is
used downstream). -/
structure SystemRequirements where
  functional_requirements : List String
  non_functional_requirements : List String
  constraints : List String
  business_rules : List String
  quality_attributes : List (String × Bool)
  extracted_entities : List String
  confidence_score : ℚ := 0
deriving DecidableEq, Repr

/-- Truthiness lookup, Python `dict.get(key)` used as a boolean. -/
def qget (qa : List (String × Bool)) (key : String) : Bool :=
  match qa.find? (fun p => p.1 == key) with
  | some p => p.2
  | none => false

/-- SystemComponent dataclass (`properties`/`metadata` omitted, never used
by the modelled code paths). -/
structure SystemComponent where
  name : String
  component_type : String
  responsibilities : List String
  interfaces : List String
  dependencies : List String
deriving DecidableEq, Repr

/-- One relationship dict.  Generated relationships carry a description,
pattern-library ones do not. -/
structure Relationship where
  source : String
  target : String
  rtype : String
  description : Option String := none
deriving DecidableEq, Repr

/-- SystemArchitecture dataclass (metadata omitted). -/
structure SystemArchitecture where
  components : List SystemComponent
  relationships : List Relationship
  patterns : List String
  quality_attributes : List (String × Bool)
  technology_stack : List (String × List String)
  deployment_model : String
deriving DecidableEq, Repr

/-- GeneratedCode dataclass; `files` is an insertion-ordered association
list mirroring the Python dict. -/
structure GeneratedCode where
  language : String
  framework : String
  files : List (String × String)
  dependencies : List String
  entry_point : String
  build_commands : List String
  run_commands : List String
deriving DecidableEq, Repr

/- ## Dict helpers (Python dict with insertion order) -/

/-- Membership of a key in an association-list dict. -/
def dcontains (d : List (String × String)) (k : String) : Bool :=
  d.any (fun p => p.1 == k)

/-- Python `d[k] = v`: overwrite in place, or append a new entry. -/
def dinsert (d : List (String × String)) (k v : String) : List (String × String) :=
  if dcontains d k then d.map (fun p => if p.1 == k then (k, v) else p)
  else d ++ [(k, v)]

/-- Lookup in a nested association list with a default. -/
def dlookup2 (d : List (String × List (String × String))) (k1 k2 : String) : String :=
  match d.find? (fun p => p.1 == k1) with
  | some p =>
    match p.2.find? (fun q => q.1 == k2) with
    | some q => q.2
    | none => ""
  | none => ""

/- ## Conversation service (src/src/services/conversation_service.py) -/

/-- Error taxonomy raised at the extraction boundary. -/
inductive ExtractError
  | conversationProcessingError (msg : String)
  | statementParsingError (msg : String)
deriving DecidableEq, Repr

/-- Message carried by an extraction error (Python `str(e)`). -/
def ExtractError.msg : ExtractError → String
  | .conversationProcessingError m => m
  | .statementParsingError m => m

/-- ConversationService._validate_statement.  The `hasattr`/`is None` test
on each required field becomes an `Option.isNone` test; `content` is
checked first via its strip. -/
def validateStatement (s : Statement) : Except ExtractError Unit :=
  if trimS s.content = "" then
    .error (.statementParsingError "Statement content is empty")
  else if s.content.length > 10000 then
    .error (.statementParsingError "Statement too long (>10000 characters)")
  else if s.context.isNone then
    .error (.statementParsingError "Statement missing required field: context")
  else if s.timestamp.isNone then
    .error (.statementParsingError "Statement missing required field: timestamp")
  else if s.speaker.isNone then
    .error (.statementParsingError "Statement missing required field: speaker")
  else if s.statement_type.isNone then
    .error (.statementParsingError "Statement missing required field: statement_type")
  else .ok ()

/-- Indexed loop of ConversationService._validate_conversation over the
statements, wrapping the first failure. -/
def validateStatementsFrom (i : Nat) : List Statement → Except ExtractError Unit
  | [] => .ok ()
  | s :: rest =>
    match validateStatement s with
    | .error e =>
      .error (.conversationProcessingError
        ("Invalid statement at index " ++ toString i ++ ": " ++ e.msg))
    | .ok _ => validateStatementsFrom (i + 1) rest

/-- ConversationService._validate_conversation. -/
def validateConversation (conv : Conversation) : Except ExtractError Unit :=
  if conv.statements.isEmpty then
    .error (.conversationProcessingError "Conversation has no statements")
  else if conv.statements.length > 1000 then
    .error (.conversationProcessingError "Conversation too long (>1000 statements)")
  else validateStatementsFrom 0 conv.statements

/-- The fixed technical-keyword vocabulary of
EnhancedConversationalParser.extract_entities. -/
def technicalKeywords : List String :=
  ["api", "database", "user", "authentication", "authorization",
   "payment", "notification", "email", "sms", "file", "upload",
   "download", "search", "filter", "sort", "pagination", "cache",
   "session", "cookie", "token", "jwt", "oauth", "ssl", "https",
   "rest", "graphql", "websocket", "microservice", "container",
   "docker", "kubernetes", "aws", "gcp", "azure"]

/-- EnhancedConversationalParser.extract_entities (the per-text memo cache
is semantically transparent and not modelled). -/
def extractEntities (text : String) : List String :=
  technicalKeywords.foldl
    (fun acc keyword => if hasSub (lowerS text) keyword then acc ++ [keyword] else acc) []

/-- Action-verb table of _extract_functional_requirements. -/
def actionKeywords : List String :=
  ["create", "build", "implement", "develop", "add", "remove",
   "update", "delete", "manage", "handle", "process", "generate"]

/-- EnhancedConversationalParser._extract_functional_requirements. -/
def extractFunctionalRequirements (stmt : Statement) : List String :=
  let content := stmt.content
  let contentLower := lowerS content
  let requirements := actionKeywords.foldl
    (fun acc pat =>
      if hasSub contentLower pat then
        (pySplitChar content '.').foldl
          (fun acc2 sentence =>
            if hasSub (lowerS sentence) pat then acc2 ++ [trimS sentence] else acc2) acc
      else acc) []
  if requirements.isEmpty then [content] else requirements

/-- Quality-attribute table of _extract_non_functional_requirements. -/
def qualityKeywords : List String :=
  ["performance", "scalability", "security", "reliability",
   "availability", "usability", "maintainability", "portability"]

/-- EnhancedConversationalParser._extract_non_functional_requirements. -/
def extractNonFunctionalRequirements (stmt : Statement) : List String :=
  let content := stmt.content
  let requirements := qualityKeywords.foldl
    (fun acc pat =>
      if hasSub (lowerS content) pat then acc ++ [titleWord pat ++ ": " ++ content] else acc) []
  if requirements.isEmpty then [content] else requirements

/-- Constraint-keyword table of _extract_constraints. -/
def constraintKeywords : List String :=
  ["must", "should", "cannot", "limited to", "restricted",
   "required", "mandatory", "forbidden", "not allowed"]

/-- EnhancedConversationalParser._extract_constraints (the loop breaks on
the first match, so the statement content is appended at most once). -/
def extractConstraints (stmt : Statement) : List String :=
  let constraints :=
    if constraintKeywords.any (fun pat => hasSub (lowerS stmt.content) pat)
    then [stmt.content] else []
  if constraints.isEmpty then [stmt.content] else constraints

/-- Rule-keyword table of _extract_business_rules. -/
def ruleKeywords : List String :=
  ["if", "when", "unless", "only if", "provided that",
   "business rule", "policy", "regulation", "compliance"]

/-- EnhancedConversationalParser._extract_business_rules. -/
def extractBusinessRules (stmt : Statement) : List String :=
  let rules :=
    if ruleKeywords.any (fun pat => hasSub (lowerS stmt.content) pat)
    then [stmt.content] else []
  if rules.isEmpty then [stmt.content] else rules

/-- Set-union step for the entity accumulator (the Python `set.update`;
insertion order stands in for the unspecified set order). -/
def setUnion (acc : List String) (new : List String) : List String :=
  new.foldl (fun a e => if a.contains e then a else a ++ [e]) acc

/-- EnhancedConversationalParser._extract_quality_attributes. -/
def extractQualityAttributes (conv : Conversation) : List (String × Bool) :=
  let fullText := joinSep " " (conv.statements.map (fun s => lowerS s.content))
  ["performance", "scalability", "security", "reliability", "usability"].map
    (fun a => (a, hasSub fullText a))

/-- Intent-keyword table of _calculate_parsing_confidence (seven entries,
including `implement`). -/
def intentKeywords : List String :=
  ["create", "build", "implement", "need", "want", "should", "must"]

/-- EnhancedConversationalParser._calculate_parsing_confidence. -/
def calculateParsingConfidence (conv : Conversation) : ℚ :=
  let totalStatements := conv.statements.length
  let parsedStatements := conv.statements.foldl
    (fun acc s =>
      if intentKeywords.any (fun keyword => hasSub (lowerS s.content) keyword)
      then acc + 1 else acc) (0 : Nat)
  if totalStatements > 0 then (parsedStatements : ℚ) / (totalStatements : ℚ) else 0

/-- Per-statement accumulator state of parse_statements. -/
structure ParseAcc where
  functional_reqs : List String
  non_functional_reqs : List String
  constraints : List String
  business_rules : List String
  entities : List String
deriving DecidableEq, Repr

/-- One iteration of the parse_statements loop (a statement with a `None`
type matches none of the four branches; the per-statement try/except never
fires in this total model). -/
def parseStep (acc : ParseAcc) (s : Statement) : ParseAcc :=
  let acc1 :=
    match s.statement_type with
    | some .functional =>
      { acc with functional_reqs := acc.functional_reqs ++ extractFunctionalRequirements s }
    | some .non_functional =>
      { acc with non_functional_reqs :=
          acc.non_functional_reqs ++ extractNonFunctionalRequirements s }
    | some .constraint =>
      { acc with constraints := acc.constraints ++ extractConstraints s }
    | some .business_rule =>
      { acc with business_rules := acc.business_rules ++ extractBusinessRules s }
    | _ => acc
  { acc1 with entities := setUnion acc1.entities (extractEntities s.content) }

/-- EnhancedConversationalParser.parse_statements. -/
def parseStatements (conv : Conversation) : SystemRequirements :=
  let acc := conv.statements.foldl parseStep ⟨[], [], [], [], []⟩
  { functional_requirements := acc.functional_reqs
    non_functional_requirements := acc.non_functional_reqs
    constraints := acc.constraints
    business_rules := acc.business_rules
    quality_attributes := extractQualityAttributes conv
    extracted_entities := acc.entities
    confidence_score := calculateParsingConfidence conv }

/-- The extraction boundary: ConversationService.process_conversation
validates, then parses; any validation error aborts the run with no
partial result. -/
def extractRequirements (conv : Conversation) : Except ExtractError SystemRequirements := do
  validateConversation conv
  pure (parseStatements conv)

/- ## Architecture service (src/src/services/architecture_service.py) -/

/-- One pattern-library entry (description omitted, never read). -/
structure PatternConfig where
  components : List SystemComponent
  relationships : List Relationship
  requirements : List String
deriving DecidableEq, Repr

/-- ArchitectureService._load_pattern_library.  Component dicts become
`SystemComponent`s with the defaulted empty interface/dependency lists. -/
def patternLibrary : List (String × PatternConfig) :=
  [("layered",
    { components :=
        [⟨"PresentationLayer", "layer", ["UI handling"], [], []⟩,
         ⟨"BusinessLayer", "layer", ["Business logic"], [], []⟩,
         ⟨"DataLayer", "layer", ["Data access"], [], []⟩]
      relationships :=
        [⟨"PresentationLayer", "BusinessLayer", "depends_on", none⟩,
         ⟨"BusinessLayer", "DataLayer", "depends_on", none⟩]
      requirements := ["clear_separation_of_concerns"] }),
   ("microservices",
    { components :=
        [⟨"APIGateway", "api_gateway", ["Request routing"], [], []⟩,
         ⟨"ServiceRegistry", "registry", ["Service discovery"], [], []⟩]
      relationships := []
      requirements := ["service_independence", "distributed_deployment"] }),
   ("mvc",
    { components :=
        [⟨"Model", "model", ["Data management"], [], []⟩,
         ⟨"View", "view", ["UI presentation"], [], []⟩,
         ⟨"Controller", "controller", ["Request handling"], [], []⟩]
      relationships :=
        [⟨"Controller", "Model", "uses", none⟩,
         ⟨"Controller", "View", "updates", none⟩,
         ⟨"View", "Model", "observes", none⟩]
      requirements := ["clear_mvc_separation"] }),
   ("event_driven",
    { components :=
        [⟨"EventBus", "event_bus", ["Event routing"], [], []⟩,
         ⟨"EventStore", "storage", ["Event persistence"], [], []⟩]
      relationships := []
      requirements := ["event_based_communication"] })]

/-- Key lookup in the pattern library. -/
def patternLookup (pattern : String) : Option PatternConfig :=
  match patternLibrary.find? (fun p => p.1 == pattern) with
  | some p => some p.2
  | none => none

/-- ArchitectureService._check_pattern_requirement. -/
def checkPatternRequirement (arch : SystemArchitecture) (requirement : String) : Bool :=
  if requirement == "clear_separation_of_concerns" then
    arch.components.length ≥ 3
  else if requirement == "service_independence" then
    (arch.components.filter (fun c => c.component_type == "service")).length ≥ 2
  else if requirement == "distributed_deployment" then
    hasSub (lowerS arch.deployment_model) "microservices"
  else if requirement == "clear_mvc_separation" then
    ["model", "view", "controller"].all
      (fun t => arch.components.any (fun c => c.component_type == t))
  else if requirement == "event_based_communication" then
    arch.components.any (fun c => hasSub c.component_type "event")
  else true

/-- EnhancedArchitecturalInference.validate_architecture (the basic check
run first by the comprehensive validator). -/
def validateArchitectureBasic (arch : SystemArchitecture) : List String :=
  (if arch.components.isEmpty then ["Architecture has no components"] else []) ++
  (if arch.patterns.isEmpty then ["Architecture has no patterns defined"] else []) ++
  arch.components.foldl
    (fun acc c =>
      if c.responsibilities.isEmpty
      then acc ++ ["Component " ++ c.name ++ " has no responsibilities"] else acc) []

/-- Loop body of ArchitectureService._validate_components, carrying the
running set of seen names. -/
def validateComponentsAux (seen : List String) : List SystemComponent → List String
  | [] => []
  | c :: rest =>
    (if seen.contains c.name then ["Duplicate component name: " ++ c.name] else []) ++
    (if c.responsibilities.isEmpty
     then ["Component " ++ c.name ++ " has no responsibilities"] else []) ++
    (if c.component_type == "" then ["Component " ++ c.name ++ " has no type"] else []) ++
    validateComponentsAux (c.name :: seen) rest

/-- ArchitectureService._validate_components. -/
def validateComponents (components : List SystemComponent) : List String :=
  if components.isEmpty then ["Architecture has no components"]
  else validateComponentsAux [] components

/-- ArchitectureService._validate_relationships (an empty source or target
string is falsy in Python and reported as missing). -/
def validateRelationships (arch : SystemArchitecture) : List String :=
  let componentNames := arch.components.map (fun c => c.name)
  arch.relationships.foldl
    (fun acc r =>
      if r.source == "" || r.target == "" then
        acc ++ ["Relationship missing source or target"]
      else
        (acc ++
          (if componentNames.contains r.source then []
           else ["Relationship references unknown component: " ++ r.source])) ++
          (if componentNames.contains r.target then []
           else ["Relationship references unknown component: " ++ r.target])) []

/-- Loop body of ArchitectureService._validate_patterns. -/
def validatePatternStep (arch : SystemArchitecture) (acc : List String)
    (pattern : String) : List String :=
  match patternLookup pattern with
  | none => acc ++ ["Unknown architectural pattern: " ++ pattern]
  | some config =>
    acc ++ config.requirements.foldl
      (fun acc2 requirement =>
        if checkPatternRequirement arch requirement then acc2
        else acc2 ++ ["Pattern " ++ pattern ++ " requirement not met: " ++ requirement]) []

/-- ArchitectureService._validate_patterns. -/
def validatePatterns (arch : SystemArchitecture) : List String :=
  arch.patterns.foldl (validatePatternStep arch) []

/-- The flattened, lowercased technology list used by both stack checks. -/
def allTechnologies (techStack : List (String × List String)) : List String :=
  techStack.foldl (fun acc p => acc ++ p.2.map lowerS) []

/-- ArchitectureService._check_technology_conflicts. -/
def checkTechnologyConflicts (techStack : List (String × List String)) : List String :=
  let all := allTechnologies techStack
  [(("mysql", "postgresql"), "Cannot use both MySQL and PostgreSQL"),
   (("react", "vue"), "Cannot use both React and Vue in frontend"),
   (("express", "fastify"), "Cannot use both Express and Fastify")].foldl
    (fun acc rule =>
      if all.contains rule.1.1 && all.contains rule.1.2 then acc ++ [rule.2] else acc) []

/-- ArchitectureService._check_missing_dependencies. -/
def checkMissingDependencies (techStack : List (String × List String)) : List String :=
  let all := allTechnologies techStack
  [("react", ["nodejs"]), ("vue", ["nodejs"]), ("django", ["python"]),
   ("flask", ["python"]), ("spring", ["java"]), ("express", ["nodejs"])].foldl
    (fun acc rule =>
      if all.contains rule.1 then
        rule.2.foldl
          (fun acc2 dep =>
            if all.contains dep then acc2
            else acc2 ++ ["Technology " ++ rule.1 ++ " requires " ++ dep]) acc
      else acc) []

/-- ArchitectureService._validate_technology_stack. -/
def validateTechnologyStack (arch : SystemArchitecture) : List String :=
  checkTechnologyConflicts arch.technology_stack ++
  checkMissingDependencies arch.technology_stack

/-- ArchitectureService.validate_architecture_comprehensive, issue list. -/
def validateArchitectureComprehensive (arch : SystemArchitecture) : List String :=
  validateArchitectureBasic arch ++
  validateComponents arch.components ++
  validateRelationships arch ++
  validatePatterns arch ++
  validateTechnologyStack arch

/-- State-passing form of validate_architecture_comprehensive: the method
receives the architecture by reference, and every sub-validator of the
source only reads it, which the embedding records by returning the
threaded state. -/
def validateArchitectureComprehensiveS
    (arch : SystemArchitecture) : List String × SystemArchitecture :=
  (validateArchitectureComprehensive arch, arch)

/- ### Auto-fix (ArchitectureService._auto_fix_architecture_issues) -/

/-- In-place mutation of the first component returned by
SystemArchitecture.get_component_by_name. -/
def updateFirstNamed (w : String) (f : SystemComponent → SystemComponent) :
    List SystemComponent → List SystemComponent
  | [] => []
  | c :: rest =>
    if c.name = w then f c :: rest else c :: updateFirstNamed w f rest

/-- One iteration of the auto-fix loop.  The source takes
`issue.split()[1]` as the component name; an issue with fewer than two
whitespace tokens would raise IndexError in Python, no such issue is ever
produced by the validators, and the model treats it as a no-op. -/
def fixIssue (comps : List SystemComponent) (issue : String) : List SystemComponent :=
  if hasSub issue "has no responsibilities" then
    match (pySplitWs issue).get? 1 with
    | some componentName =>
      updateFirstNamed componentName
        (fun c => { c with
          responsibilities := ["Handle " ++ c.component_type ++ " operations"] }) comps
    | none => comps
  else if hasSub issue "has no type" then
    match (pySplitWs issue).get? 1 with
    | some componentName =>
      updateFirstNamed componentName (fun c => { c with component_type := "service" }) comps
    | none => comps
  else comps

/-- ArchitectureService._auto_fix_architecture_issues. -/
def autoFixArchitectureIssues
    (arch : SystemArchitecture) (issues : List String) : SystemArchitecture :=
  { arch with components := issues.foldl fixIssue arch.components }

/- ### Optimizer (ArchitectureService._optimize_architecture) -/

/-- Does some component have exactly this type. -/
def hasCompType (comps : List SystemComponent) (t : String) : Bool :=
  comps.any (fun c => c.component_type == t)

/-- The canonical cache component appended by the performance pass. -/
def cacheComponent : SystemComponent :=
  ⟨"CacheLayer", "cache", ["Data caching", "Performance optimization"], ["CacheInterface"], []⟩

/-- The canonical load balancer appended by the performance pass. -/
def loadBalancerComponent : SystemComponent :=
  ⟨"LoadBalancer", "load_balancer", ["Load distribution", "High availability"],
   ["LoadBalancerInterface"], []⟩

/-- The canonical message queue appended by the scalability pass. -/
def messageQueueComponent : SystemComponent :=
  ⟨"MessageQueue", "message_queue", ["Async message processing", "Service decoupling"],
   ["MessageQueueInterface"], []⟩

/-- The canonical authentication service appended by the security pass. -/
def authComponent : SystemComponent :=
  ⟨"AuthenticationService", "service", ["User authentication", "Token management"],
   ["AuthInterface"], []⟩

/-- The canonical API gateway appended by the security pass. -/
def gatewayComponent : SystemComponent :=
  ⟨"APIGateway", "api_gateway", ["Request routing", "Authentication", "Rate limiting"],
   ["GatewayInterface"], []⟩

/-- First statement of _optimize_for_performance: append a cache
component unless one exists. -/
def addCache (arch : SystemArchitecture) : SystemArchitecture :=
  if hasCompType arch.components "cache" then arch
  else { arch with components := arch.components ++ [cacheComponent] }

/-- Second statement of _optimize_for_performance: with more than one
service-typed component, append a load balancer unless one exists. -/
def addLoadBalancer (arch : SystemArchitecture) : SystemArchitecture :=
  if (arch.components.filter (fun c => c.component_type == "service")).length > 1 then
    if hasCompType arch.components "load_balancer" then arch
    else { arch with components := arch.components ++ [loadBalancerComponent] }
  else arch

/-- ArchitectureService._optimize_for_performance: the two statements in
sequence (the load-balancer check sees the post-cache component list). -/
def optimizeForPerformance (arch : SystemArchitecture) : SystemArchitecture :=
  addLoadBalancer (addCache arch)

/-- First statement of _optimize_for_scalability: ensure the pattern. -/
def addMicroservicesPattern (arch : SystemArchitecture) : SystemArchitecture :=
  if arch.patterns.contains "microservices" then arch
  else { arch with patterns := arch.patterns ++ ["microservices"] }

/-- Second statement of _optimize_for_scalability: append a message queue
unless one exists. -/
def addMessageQueue (arch : SystemArchitecture) : SystemArchitecture :=
  if hasCompType arch.components "message_queue" then arch
  else { arch with components := arch.components ++ [messageQueueComponent] }

/-- ArchitectureService._optimize_for_scalability. -/
def optimizeForScalability (arch : SystemArchitecture) : SystemArchitecture :=
  addMessageQueue (addMicroservicesPattern arch)

/-- First statement of _optimize_for_security: append the authentication
service unless some component name contains "auth". -/
def addAuthService (arch : SystemArchitecture) : SystemArchitecture :=
  if arch.components.any (fun c => hasSub (lowerS c.name) "auth") then arch
  else { arch with components := arch.components ++ [authComponent] }

/-- Second statement of _optimize_for_security: append an API gateway
unless one exists. -/
def addApiGateway (arch : SystemArchitecture) : SystemArchitecture :=
  if hasCompType arch.components "api_gateway" then arch
  else { arch with components := arch.components ++ [gatewayComponent] }

/-- ArchitectureService._optimize_for_security. -/
def optimizeForSecurity (arch : SystemArchitecture) : SystemArchitecture :=
  addApiGateway (addAuthService arch)

/-- The performance-gated statement of _optimize_architecture. -/
def gatePerformance (requirements : SystemRequirements) (arch : SystemArchitecture) :
    SystemArchitecture :=
  if qget requirements.quality_attributes "performance" = true
  then optimizeForPerformance arch else arch

/-- The scalability-gated statement of _optimize_architecture. -/
def gateScalability (requirements : SystemRequirements) (arch : SystemArchitecture) :
    SystemArchitecture :=
  if qget requirements.quality_attributes "scalability" = true
  then optimizeForScalability arch else arch

/-- The security-gated statement of _optimize_architecture. -/
def gateSecurity (requirements : SystemRequirements) (arch : SystemArchitecture) :
    SystemArchitecture :=
  if qget requirements.quality_attributes "security" = true
  then optimizeForSecurity arch else arch

/-- ArchitectureService._optimize_architecture: the three gated passes in
source order. -/
def optimizeArchitecture
    (requirements : SystemRequirements) (arch : SystemArchitecture) : SystemArchitecture :=
  gateSecurity requirements (gateScalability requirements (gatePerformance requirements arch))

/- ### Inference engine (EnhancedArchitecturalInference) -/

/-- EnhancedArchitecturalInference._load_component_templates. -/
def componentTemplates : List (String × SystemComponent) :=
  [("api", ⟨"APIService", "api", ["Handle HTTP requests", "Route requests"],
            ["RestAPI", "HTTPInterface"], []⟩),
   ("database", ⟨"DatabaseService", "database", ["Data storage", "Data retrieval"],
                 ["DatabaseInterface"], []⟩),
   ("user", ⟨"UserService", "service", ["User management", "Authentication"],
             ["UserInterface"], []⟩),
   ("authentication", ⟨"AuthenticationService", "service",
                       ["User authentication", "Token management"], ["AuthInterface"], []⟩),
   ("payment", ⟨"PaymentService", "service",
                ["Payment processing", "Transaction management"], ["PaymentInterface"], []⟩),
   ("notification", ⟨"NotificationService", "service",
                     ["Send notifications", "Message delivery"], ["NotificationInterface"], []⟩)]

/-- EnhancedArchitecturalInference._get_default_components. -/
def defaultComponents : List SystemComponent :=
  [⟨"APIGateway", "api_gateway", ["Request routing", "Authentication"], ["HTTPInterface"], []⟩,
   ⟨"BusinessService", "service", ["Business logic", "Data processing"],
    ["BusinessInterface"], ["DatabaseService"]⟩,
   ⟨"DatabaseService", "database", ["Data persistence", "Data retrieval"],
    ["DatabaseInterface"], []⟩]

/-- EnhancedArchitecturalInference._generate_components. -/
def generateComponents (requirements : SystemRequirements) : List SystemComponent :=
  let components := requirements.extracted_entities.foldl
    (fun acc entity =>
      match componentTemplates.find? (fun p => p.1 == entity) with
      | some p => acc ++ [p.2]
      | none => acc) []
  if components.isEmpty then defaultComponents else components

/-- EnhancedArchitecturalInference._generate_relationships: nested loops
appending one edge per (api, service) pair and one per (service, database)
pair, translated as bind/map. -/
def generateRelationships (components : List SystemComponent) : List Relationship :=
  let apiComponents := components.filter (fun c => hasSub (lowerS c.component_type) "api")
  let dbComponents := components.filter (fun c => hasSub (lowerS c.component_type) "database")
  let serviceComponents := components.filter (fun c => c.component_type == "service")
  (apiComponents.flatMap (fun apiComp =>
    serviceComponents.map (fun serviceComp =>
      ⟨apiComp.name, serviceComp.name, "calls",
       some (apiComp.name ++ " calls " ++ serviceComp.name)⟩))) ++
  (serviceComponents.flatMap (fun serviceComp =>
    dbComponents.map (fun dbComp =>
      ⟨serviceComp.name, dbComp.name, "uses",
       some (serviceComp.name ++ " uses " ++ dbComp.name)⟩)))

/-- EnhancedArchitecturalInference.suggest_patterns.  The final
`list(set(patterns))` has unspecified order in the source; `List.dedup`
stands in for it, and only membership in the result is relied upon. -/
def suggestPatterns (requirements : SystemRequirements) : List String :=
  let funcReqsText := lowerS (joinSep " " requirements.functional_requirements)
  let patterns :=
    (if ["api", "service", "microservice"].any (fun w => hasSub funcReqsText w)
     then ["microservices"] else []) ++
    (if ["web", "ui", "interface"].any (fun w => hasSub funcReqsText w)
     then ["mvc"] else []) ++
    (if ["event", "notification", "async"].any (fun w => hasSub funcReqsText w)
     then ["event_driven"] else []) ++
    (if ["layer", "tier"].any (fun w => hasSub funcReqsText w)
     then ["layered"] else []) ++
    (if qget requirements.quality_attributes "scalability" then ["microservices"] else []) ++
    (if qget requirements.quality_attributes "performance" then ["caching"] else [])
  let patterns := if patterns.isEmpty then ["layered"] else patterns
  patterns.dedup

/-- EnhancedArchitecturalInference._determine_technology_stack. -/
def determineTechnologyStack (requirements : SystemRequirements) :
    List (String × List String) :=
  let allText := lowerS (joinSep " "
    (requirements.functional_requirements ++ requirements.non_functional_requirements))
  let backend :=
    if hasSub allText "python" || hasSub allText "django" || hasSub allText "flask" then
      ["Python", "FastAPI"]
    else if hasSub allText "node" || hasSub allText "javascript" then
      ["Node.js", "Express"]
    else if hasSub allText "java" || hasSub allText "spring" then
      ["Java", "Spring Boot"]
    else ["Python", "FastAPI"]
  let frontend :=
    if hasSub allText "react" then ["React"]
    else if hasSub allText "vue" then ["Vue.js"]
    else if hasSub allText "angular" then ["Angular"]
    else ["React"]
  let database :=
    if hasSub allText "postgresql" || hasSub allText "postgres" then ["PostgreSQL"]
    else if hasSub allText "mysql" then ["MySQL"]
    else if hasSub allText "mongodb" || hasSub allText "mongo" then ["MongoDB"]
    else ["PostgreSQL"]
  [("backend", backend), ("frontend", frontend), ("database", database),
   ("infrastructure", ["Docker", "Kubernetes"])]

/-- EnhancedArchitecturalInference._determine_deployment_model. -/
def determineDeploymentModel (requirements : SystemRequirements) : String :=
  let allText := lowerS (joinSep " "
    (requirements.functional_requirements ++ requirements.non_functional_requirements))
  if hasSub allText "cloud" || hasSub allText "aws" || hasSub allText "gcp" then "cloud"
  else if hasSub allText "container" || hasSub allText "docker" then "containerized"
  else if hasSub allText "serverless" then "serverless"
  else "cloud"

/-- EnhancedArchitecturalInference.infer_architecture (the metadata dict,
holding only the architecture-type tag, a wall-clock timestamp and the
requirement confidence, is omitted from the model). -/
def inferArchitecture (requirements : SystemRequirements) : SystemArchitecture :=
  let components := generateComponents requirements
  { components := components
    relationships := generateRelationships components
    patterns := suggestPatterns requirements
    quality_attributes := requirements.quality_attributes
    technology_stack := determineTechnologyStack requirements
    deployment_model := determineDeploymentModel requirements }

/- ## Code generation service (src/src/services/code_generation_service.py) -/

/-- CodeGenConfig.supported_languages (src/src/core/config.py). -/
def supportedLanguages : List String :=
  ["python", "rust", "go", "typescript", "java", "cpp"]

/-- The python/fastapi template body of _load_templates (opaque text
asset; literal braces written with their escapes). -/
def pythonFastapiTemplate : String :=
  "\nfrom fastapi import FastAPI\nfrom fastapi.middleware.cors import CORSMiddleware\n\napp = FastAPI(title=\"{app_name}\")\n\napp.add_middleware(\n    CORSMiddleware,\n    allow_origins=[\"*\"],\n    allow_credentials=True,\n    allow_methods=[\"*\"],\n    allow_headers=[\"*\"],\n)\n\n@app.get(\"/\")\nasync def root():\n    return \x7b\x7b\"message\": \"Hello from {app_name}\"\x7d\x7d\n\n@app.get(\"/health\")\nasync def health():\n    return \x7b\x7b\"status\": \"healthy\"\x7d\x7d\n\nif __name__ == \"__main__\":\n    import uvicorn\n    uvicorn.run(app, host=\"0.0.0.0\", port=8000)\n"

/-- The rust/axum template body of _load_templates (opaque text asset;
literal braces written with their escapes). -/
def rustAxumTemplate : String :=
  "\nuse axum::\x7b\x7b\n    routing::get,\n    Router,\n    Json,\n\x7d\x7d;\nuse serde_json::\x7b\x7bjson, Value\x7d\x7d;\nuse std::net::SocketAddr;\n\n#[tokio::main]\nasync fn main() \x7b\x7b\n    let app = Router::new()\n        .route(\"/\", get(root))\n        .route(\"/health\", get(health));\n\n    let addr = SocketAddr::from(([0, 0, 0, 0], 3000));\n    println!(\"Server running on \x7b\x7b\x7d\x7d\", addr);\n    \n    axum::Server::bind(&addr)\n        .serve(app.into_make_service())\n        .await\n        .unwrap();\n\x7d\x7d\n\nasync fn root() -> Json<Value> \x7b\x7b\n    Json(json!(\x7b\x7b\"message\": \"Hello from {app_name}\"\x7d\x7d))\n\x7d\x7d\n\nasync fn health() -> Json<Value> \x7b\x7b\n    Json(json!(\x7b\x7b\"status\": \"healthy\"\x7d\x7d))\n\x7d\x7d\n"

/-- EnhancedMultiLanguageGenerator._load_templates: only python/fastapi
and rust/axum have template bodies. -/
def codeTemplates : List (String × List (String × String)) :=
  [("python", [("fastapi", pythonFastapiTemplate)]),
   ("rust", [("axum", rustAxumTemplate)])]

/-- Python `template.format(app_name=...)`: substitute the placeholder and
unescape the doubled braces. -/
def formatAppName (template appName : String) : String :=
  replaceS (replaceS (replaceS template "{app_name}" appName) "\x7b\x7b" "\x7b") "\x7d\x7d" "\x7d"

/-- EnhancedMultiLanguageGenerator._get_default_framework. -/
def getDefaultFramework (language : String) : String :=
  if language == "python" then "fastapi"
  else if language == "rust" then "axum"
  else if language == "go" then "gin"
  else if language == "typescript" then "express"
  else if language == "java" then "spring"
  else if language == "cpp" then "crow"
  else "default"

/-- EnhancedMultiLanguageGenerator._get_main_filename. -/
def getMainFilename (language : String) : String :=
  if language == "python" then "main.py"
  else if language == "rust" then "main.rs"
  else if language == "go" then "main.go"
  else if language == "typescript" then "index.ts"
  else if language == "java" then "Main.java"
  else if language == "cpp" then "main.cpp"
  else "main.txt"

/-- EnhancedMultiLanguageGenerator._extract_dependencies. -/
def extractDependencies (language framework : String) : List String :=
  if language == "python" then
    (if framework == "fastapi" then ["fastapi", "uvicorn", "pydantic"]
     else if framework == "flask" then ["flask", "flask-cors"]
     else if framework == "django" then ["django", "djangorestframework"]
     else [])
  else if language == "rust" then
    (if framework == "axum" then ["axum", "tokio", "serde_json"]
     else if framework == "warp" then ["warp", "tokio", "serde_json"]
     else [])
  else if language == "go" then
    (if framework == "gin" then ["github.com/gin-gonic/gin"]
     else if framework == "echo" then ["github.com/labstack/echo/v4"]
     else [])
  else []

/-- EnhancedMultiLanguageGenerator._get_build_commands. -/
def getBuildCommands (language : String) : List String :=
  if language == "python" then []
  else if language == "rust" then ["cargo build --release"]
  else if language == "go" then ["go build"]
  else if language == "typescript" then ["npm run build"]
  else if language == "java" then ["mvn compile"]
  else if language == "cpp" then ["make"]
  else []

/-- EnhancedMultiLanguageGenerator._get_run_commands. -/
def getRunCommands (language : String) : List String :=
  if language == "python" then ["python main.py"]
  else if language == "rust" then ["cargo run"]
  else if language == "go" then ["go run main.go"]
  else if language == "typescript" then ["npm start"]
  else if language == "java" then ["java Main"]
  else if language == "cpp" then ["./main"]
  else []

/-- EnhancedMultiLanguageGenerator._generate_component_file: only the
python branch emits a file. -/
def generateComponentFile (component : SystemComponent) (language : String) :
    Option (String × String) :=
  if language == "python" then
    some (lowerS component.name ++ ".py",
      "\n\"\"\"\n" ++ component.name ++ " component\nResponsibilities: " ++
      joinSep ", " component.responsibilities ++ "\n\"\"\"\n\nclass " ++
      component.name ++ ":\n    def __init__(self):\n        pass\n    \n" ++
      "    def handle_request(self):\n        return \x7b\"message\": \"Handled by " ++
      component.name ++ "\"\x7d\n")
  else none

/-- EnhancedMultiLanguageGenerator._generate_files. -/
def generateFiles (arch : SystemArchitecture) (language framework : String) :
    List (String × String) :=
  let template := dlookup2 codeTemplates language framework
  let files : List (String × String) :=
    if template ≠ "" then
      dinsert [] (getMainFilename language) (formatAppName template "generated_app")
    else []
  arch.components.foldl
    (fun fs component =>
      match generateComponentFile component language with
      | some fc => dinsert fs fc.1 fc.2
      | none => fs) files

/-- Errors surfaced by the generation boundary: the explicit unsupported
language check, and the ValueError raised by GeneratedCode.__post_init__. -/
inductive CodegenError
  | unsupportedLanguage (msg : String)
  | valueError (msg : String)
deriving DecidableEq, Repr

/-- GeneratedCode.__post_init__ as a fallible constructor. -/
def mkGeneratedCode (language framework : String) (files : List (String × String))
    (dependencies : List String) (entryPoint : String)
    (buildCommands runCommands : List String) : Except CodegenError GeneratedCode :=
  if trimS language = "" then .error (.valueError "Language cannot be empty")
  else if files.isEmpty then
    .error (.valueError "Generated code must contain at least one file")
  else if ¬ dcontains files entryPoint then
    .error (.valueError "Entry point must be one of the generated files")
  else .ok ⟨language, framework, files, dependencies, entryPoint, buildCommands, runCommands⟩

/-- EnhancedMultiLanguageGenerator.generate_code. -/
def generateCode (arch : SystemArchitecture) (language : String)
    (framework? : Option String := none) : Except CodegenError GeneratedCode :=
  if ¬ supportedLanguages.contains language then
    .error (.unsupportedLanguage ("Language " ++ language ++ " not supported"))
  else
    let framework := framework?.getD (getDefaultFramework language)
    let files := generateFiles arch language framework
    let dependencies := extractDependencies language framework
    let entryPoint := getMainFilename language
    mkGeneratedCode language framework files dependencies entryPoint
      (getBuildCommands language) (getRunCommands language)

/- ## Cloud deployment (cloud_deployment.py, ProductionCloudDeployment) -/

/-- DeploymentResult dataclass (the optional fields default to None). -/
structure DeploymentResult where
  success : Bool
  url : Option String := none
  deployment_id : Option String := none
  logs : Option (List String) := none
  error : Option String := none
deriving DecidableEq, Repr

/-- Keys of the provider-dispatch table built in __init__. -/
def supportedProviders : List String :=
  ["aws", "gcp", "azure", "vercel", "netlify", "railway", "render"]

/-- ProductionCloudDeployment.deploy_application.  The package preparation
and the per-provider branches are external collaborators; they are passed
in as functions so that the theorem can show the unsupported-provider path
consults neither.  An `Except.error` models an exception escaping the
collaborator, which the source catches and folds into the result. -/
def deployApplication
    (prepare : List (String × String) → Except String (List (String × String)))
    (providerImpl : String → List (String × String) → Except String DeploymentResult)
    (files : List (String × String)) (provider : String) : DeploymentResult :=
  if ¬ supportedProviders.contains provider then
    { success := false, error := some ("Unsupported provider: " ++ provider) }
  else
    match (do
      let package ← prepare files
      providerImpl provider package : Except String DeploymentResult) with
    | .ok result => result
    | .error e =>
      { success := false, error := some e, logs := some ["Deployment failed: " ++ e] }

/- ## Concrete sample inputs for witnesses and counterexamples -/

/-- A structurally valid statement (all required fields present). -/
def sampleStatement (content : String) : Statement :=
  ⟨content, some (), some (), some "user", some .functional, 1⟩

/-- A conversation of 1001 valid statements (over the service's limit). -/
def conv1001 : Conversation := ⟨List.replicate 1001 (sampleStatement "a"), "long"⟩

/-- A valid two-statement conversation. -/
def sampleConv : Conversation :=
  ⟨[sampleStatement "Create a REST API for user management with authentication",
    sampleStatement "The system should be fast"], "c1"⟩

/-- A one-statement conversation whose only intent keyword is
`implement`. -/
def implementConv : Conversation := ⟨[sampleStatement "Implement user login"], "c6"⟩

/-- A sample architecture built from the default component set. -/
def sampleArch : SystemArchitecture :=
  ⟨defaultComponents, [], ["layered"], [], [("backend", ["Python", "FastAPI"])], "cloud"⟩

/-- Requirements with the performance and security flags set. -/
def perfSecReq : SystemRequirements :=
  ⟨[], [], [], [], [("performance", true), ("security", true)], [], 0⟩

/-- Requirements with only the performance flag set. -/
def perfReq : SystemRequirements :=
  ⟨[], [], [], [], [("performance", true)], [], 0⟩

/-- An architecture with a single service-typed component. -/
def oneServiceArch : SystemArchitecture :=
  ⟨[⟨"BusinessService", "service", ["Business logic"], [], []⟩],
   [], ["layered"], [], [], "cloud"⟩

/-- A component whose name contains whitespace. -/
def spacedComponent : SystemComponent := ⟨"User Service", "service", [], [], []⟩

/-- A component named like the first word of `spacedComponent`. -/
def userComponent : SystemComponent := ⟨"User", "service", ["User management"], [], []⟩

/-- Architecture holding both components above. -/
def spacedArch : SystemArchitecture :=
  ⟨[spacedComponent, userComponent], [], ["layered"], [], [], "cloud"⟩

/-- An architecture with a component that has no responsibilities. -/
def fixableArch : SystemArchitecture :=
  ⟨[⟨"X", "service", [], [], []⟩], [], ["layered"], [], [], "cloud"⟩

/- ## Claim-side definitions (stated from the claim wording, for
refinement comparisons against the source-derived functions) -/

/-- Structural invalidity of a statement as the claim words it: empty
content, out-of-range confidence, or a missing required field. -/
def claimStatementInvalid (s : Statement) : Prop :=
  trimS s.content = "" ∨ ¬(0 ≤ s.confidence ∧ s.confidence ≤ 1) ∨
  s.context.isNone = true ∨ s.timestamp.isNone = true ∨
  s.speaker.isNone = true ∨ s.statement_type.isNone = true

instance (s : Statement) : Decidable (claimStatementInvalid s) := by
  unfold claimStatementInvalid; infer_instance

/-- The claim-side failure condition for extraction: zero statements or
some structurally invalid statement. -/
def claimExtractionFails (conv : Conversation) : Prop :=
  conv.statements = [] ∨ ∃ s ∈ conv.statements, claimStatementInvalid s

/-- Invalidity of a statement as the source validator actually checks it:
empty stripped content, content over 10000 characters, or a missing
required field (confidence is never inspected there). -/
def codeStatementInvalid (s : Statement) : Prop :=
  trimS s.content = "" ∨ s.content.length > 10000 ∨
  s.context.isNone = true ∨ s.timestamp.isNone = true ∨
  s.speaker.isNone = true ∨ s.statement_type.isNone = true

instance (s : Statement) : Decidable (codeStatementInvalid s) := by
  unfold codeStatementInvalid; infer_instance

/-- The failure condition the source validator actually enforces. -/
def codeExtractionFails (conv : Conversation) : Prop :=
  conv.statements = [] ∨ conv.statements.length > 1000 ∨
  ∃ s ∈ conv.statements, codeStatementInvalid s

instance (conv : Conversation) : Decidable (claimExtractionFails conv) := by
  unfold claimExtractionFails; infer_instance

instance (conv : Conversation) : Decidable (codeExtractionFails conv) := by
  unfold codeExtractionFails; infer_instance

/-- The six-keyword intent table as the claim words it (the source table
has a seventh entry, `implement`). -/
def claimIntentKeywords : List String :=
  ["create", "build", "need", "want", "should", "must"]

/-- Parsing confidence as the claim words it: the fraction of statements
containing one of the six claim keywords. -/
def claimConfidenceSix (conv : Conversation) : ℚ :=
  if conv.statements.length > 0 then
    (((conv.statements.filter (fun s =>
        claimIntentKeywords.any (fun k => hasSub (lowerS s.content) k))).length : ℚ) /
      (conv.statements.length : ℚ))
  else 0

/- ## Helper lemmas -/

/-- A conditional-increment fold counts exactly the filtered elements. -/
theorem foldl_count_eq_filter_length {α : Type} (p : α → Bool) (l : List α) (n : Nat) :
    l.foldl (fun acc x => if p x then acc + 1 else acc) n = n + (l.filter p).length := by
  induction l generalizing n with
  | nil => simp
  | cons x xs ih =>
    simp only [List.foldl_cons, List.filter_cons]
    by_cases h : p x
    · simp only [h, if_true]
      rw [ih]
      simp
      omega
    · simp only [h, if_false]
      rw [ih]
      simp [h]

/-- Length of the all-pairs flatMap/map combination. -/
theorem length_flatMap_map {α β γ : Type} (f : α → β → γ) (as : List α) (bs : List β) :
    (as.flatMap (fun a => bs.map (f a))).length = as.length * bs.length := by
  induction as with
  | nil => simp
  | cons a as ih =>
    simp only [List.flatMap_cons, List.length_append, List.length_map, ih, List.length_cons]
    ring

/- ## Claim C5 -/

/-- C5: for every file bundle, every package-preparation collaborator and
every provider dispatch table, calling deploy_application with a provider
outside the supported set returns the failed DeploymentResult with error
"Unsupported provider: ..." directly, consulting neither collaborator. -/
theorem deploy_unsupported_provider
    (prepare : List (String × String) → Except String (List (String × String)))
    (providerImpl : String → List (String × String) → Except String DeploymentResult)
    (files : List (String × String)) (provider : String)
    (h : ¬ supportedProviders.contains provider = true) :
    deployApplication prepare providerImpl files provider =
      { success := false, url := none, deployment_id := none, logs := none,
        error := some ("Unsupported provider: " ++ provider) } := by
  unfold deployApplication
  rw [if_pos h]

/-- Witness: the provider string "unknown" with concrete collaborators. -/
theorem deploy_unsupported_provider_witness :
    deployApplication (fun fs => .ok fs) (fun _ _ => .ok { success := true }) [] "unknown" =
      { success := false, url := none, deployment_id := none, logs := none,
        error := some "Unsupported provider: unknown" } := by
  rw [deploy_unsupported_provider (fun fs => .ok fs) (fun _ _ => .ok { success := true })
    [] "unknown" (by decide)]
  decide

/- ## Claim C8 -/

/-- C8: comprehensive validation is read-only: it returns its issue list
and the architecture state it threads is exactly the input, for every
architecture; by contrast the separate auto-fix step does mutate (shown on
a concrete architecture with a missing-responsibilities issue). -/
theorem validate_comprehensive_read_only (arch : SystemArchitecture) :
    (validateArchitectureComprehensiveS arch).2 = arch ∧
    (validateArchitectureComprehensiveS arch).1 = validateArchitectureComprehensive arch ∧
    autoFixArchitectureIssues fixableArch ["Component X has no responsibilities"] ≠
      fixableArch :=
  ⟨rfl, rfl, by decide⟩

/- ## Claim C3 -/

/-- C3: the generated relationship list is exactly the all-pairs cross
product (every api-typed component calls every service-typed component,
every service-typed component uses every database-typed component), so
its length is the corresponding sum of products. -/
theorem relationships_are_all_pairs (components : List SystemComponent) :
    (generateRelationships components).length =
      (components.filter (fun c => hasSub (lowerS c.component_type) "api")).length *
        (components.filter (fun c => c.component_type == "service")).length +
      (components.filter (fun c => c.component_type == "service")).length *
        (components.filter (fun c => hasSub (lowerS c.component_type) "database")).length ∧
    ∀ r : Relationship, r ∈ generateRelationships components ↔
      ((∃ a ∈ components.filter (fun c => hasSub (lowerS c.component_type) "api"),
        ∃ s ∈ components.filter (fun c => c.component_type == "service"),
          r = ⟨a.name, s.name, "calls", some (a.name ++ " calls " ++ s.name)⟩) ∨
       (∃ s ∈ components.filter (fun c => c.component_type == "service"),
        ∃ d ∈ components.filter (fun c => hasSub (lowerS c.component_type) "database"),
          r = ⟨s.name, d.name, "uses", some (s.name ++ " uses " ++ d.name)⟩)) := by
  constructor
  · unfold generateRelationships
    rw [List.length_append, length_flatMap_map, length_flatMap_map]
  · intro r
    unfold generateRelationships
    simp only [List.mem_append, List.mem_flatMap, List.mem_map]
    constructor
    · rintro (⟨a, ha, s, hs, hr⟩ | ⟨s, hs, d, hd, hr⟩)
      · exact Or.inl ⟨a, ha, s, hs, hr.symm⟩
      · exact Or.inr ⟨s, hs, d, hd, hr.symm⟩
    · rintro (⟨a, ha, s, hs, hr⟩ | ⟨s, hs, d, hd, hr⟩)
      · exact Or.inl ⟨a, ha, s, hs, hr.symm⟩
      · exact Or.inr ⟨s, hs, d, hd, hr.symm⟩

/-- Witness: the relationship list of the default component set. -/
theorem relationships_are_all_pairs_witness :
    (generateRelationships defaultComponents).length = 1 * 1 + 1 * 1 :=
  (relationships_are_all_pairs defaultComponents).1

/- ## Claim C6 -/

/-- C6 counterexample: a statement containing the intent keyword
`implement` (present in the source table, absent from the claim's
six-keyword list) makes the computed confidence 1 while the claim's
formula gives 0. -/
theorem confidence_keywords_counterexample :
    calculateParsingConfidence implementConv ≠ claimConfidenceSix implementConv := by
  have hlen : implementConv.statements.length = 1 := by decide
  have hfil : (implementConv.statements.filter (fun s =>
      intentKeywords.any (fun k => hasSub (lowerS s.content) k))).length = 1 := by decide
  have hfil6 : (implementConv.statements.filter (fun s =>
      claimIntentKeywords.any (fun k => hasSub (lowerS s.content) k))).length = 0 := by decide
  have h1 : calculateParsingConfidence implementConv = 1 := by
    unfold calculateParsingConfidence
    rw [foldl_count_eq_filter_length, hfil, hlen]
    norm_num
  have h2 : claimConfidenceSix implementConv = 0 := by
    unfold claimConfidenceSix
    rw [hfil6, hlen]
    norm_num
  rw [h1, h2]
  norm_num

/-- C6 amended: the confidence equals the fraction of statements whose
lower-cased content contains one of the seven source intent keywords
(create, build, implement, need, want, should, must). -/
theorem confidence_is_intent_fraction (conv : Conversation) :
    calculateParsingConfidence conv =
      if conv.statements.length > 0 then
        (((conv.statements.filter (fun s =>
            intentKeywords.any (fun k => hasSub (lowerS s.content) k))).length : ℚ) /
          (conv.statements.length : ℚ))
      else 0 := by
  unfold calculateParsingConfidence
  rw [foldl_count_eq_filter_length]
  simp

/- ## Claim C2 -/

/-- The statement validator succeeds exactly on statements that are valid
in the sense the source checks. -/
theorem validateStatement_ok_iff (s : Statement) :
    validateStatement s = .ok () ↔ ¬ codeStatementInvalid s := by
  unfold validateStatement codeStatementInvalid
  split_ifs with h1 h2 h3 h4 h5 h6 <;> simp_all

/-- The statement loop succeeds exactly when every statement is valid. -/
theorem validateStatementsFrom_ok_iff (l : List Statement) (i : Nat) :
    validateStatementsFrom i l = .ok () ↔ ∀ s ∈ l, ¬ codeStatementInvalid s := by
  induction l generalizing i with
  | nil => simp [validateStatementsFrom]
  | cons s rest ih =>
    unfold validateStatementsFrom
    cases hv : validateStatement s with
    | error e =>
      have hinv : codeStatementInvalid s := by
        by_contra hn
        rw [(validateStatement_ok_iff s).mpr hn] at hv
        cases hv
      simp only [List.mem_cons]
      constructor
      · intro h; cases h
      · intro h; exact absurd hinv (h s (Or.inl rfl))
    | ok u =>
      cases u
      rw [ih (i + 1)]
      have hval : ¬ codeStatementInvalid s := (validateStatement_ok_iff s).mp hv
      simp only [List.mem_cons]
      constructor
      · intro h s' hs'
        rcases hs' with hs' | hs'
        · exact hs' ▸ hval
        · exact h s' hs'
      · intro h s' hs'
        exact h s' (Or.inr hs')

/-- The conversation validator succeeds exactly when the source-level
failure condition does not hold. -/
theorem validateConversation_ok_iff (conv : Conversation) :
    validateConversation conv = .ok () ↔ ¬ codeExtractionFails conv := by
  unfold validateConversation codeExtractionFails
  split_ifs with h1 h2
  · rw [List.isEmpty_iff] at h1
    simp [h1]
  · simp only [List.isEmpty_iff] at h1
    constructor
    · intro h; cases h
    · intro h; exact absurd (Or.inr (Or.inl h2)) h
  · rw [validateStatementsFrom_ok_iff]
    simp only [List.isEmpty_iff] at h1
    constructor
    · intro h hc
      rcases hc with hc | hc | ⟨s, hs, hinv⟩
      · exact h1 hc
      · exact h2 hc
      · exact h s hs hinv
    · intro h s hs hinv
      exact h (Or.inr (Or.inr ⟨s, hs, hinv⟩))

/-- C2 amended: extraction fails if and only if the conversation has zero
statements, more than 1000 statements, or some statement with empty
stripped content, content over 10000 characters, or a missing required
field (the confidence range, enforced at Statement construction, is not
re-checked by the extraction validator); on every other conversation it
returns the complete parsed Requirements value. -/
theorem extraction_failure_characterization (conv : Conversation) :
    ((∃ e, extractRequirements conv = .error e) ↔ codeExtractionFails conv) ∧
    (extractRequirements conv = .ok (parseStatements conv) ∨
      ∃ e, extractRequirements conv = .error e) := by
  cases hv : validateConversation conv with
  | ok u =>
    cases u
    have hok : ¬ codeExtractionFails conv := (validateConversation_ok_iff conv).mp hv
    have hval : extractRequirements conv = .ok (parseStatements conv) := by
      unfold extractRequirements
      rw [hv]
      rfl
    constructor
    · constructor
      · rintro ⟨e, he⟩
        rw [hval] at he
        cases he
      · intro h
        exact absurd h hok
    · exact Or.inl hval
  | error e =>
    have hfail : codeExtractionFails conv := by
      by_contra hn
      have := (validateConversation_ok_iff conv).mpr hn
      rw [hv] at this
      cases this
    have hval : extractRequirements conv = .error e := by
      unfold extractRequirements
      rw [hv]
      rfl
    exact ⟨⟨fun _ => hfail, fun _ => ⟨e, hval⟩⟩, Or.inr ⟨e, hval⟩⟩

/-- C2 counterexample: a conversation of 1001 structurally valid
statements fails extraction, although the claim-side failure condition
(zero statements or an invalid statement) does not hold. -/
theorem extraction_limit_counterexample :
    (∃ e, extractRequirements conv1001 = .error e) ∧
      ¬ claimExtractionFails conv1001 := by
  have hlen : conv1001.statements.length = 1001 := by
    show (List.replicate 1001 (sampleStatement "a")).length = 1001
    rw [List.length_replicate]
  constructor
  · have h1 : ¬ (conv1001.statements.isEmpty = true) := by
      rw [List.isEmpty_iff]
      intro hnil
      rw [hnil] at hlen
      cases hlen
    have h2 : conv1001.statements.length > 1000 := by omega
    refine ⟨.conversationProcessingError "Conversation too long (>1000 statements)", ?_⟩
    unfold extractRequirements validateConversation
    rw [if_neg h1, if_pos h2]
    rfl
  · intro h
    rcases h with h | ⟨s, hs, hinv⟩
    · rw [h] at hlen
      cases hlen
    · have hs' : s = sampleStatement "a" := by
        have : s ∈ List.replicate 1001 (sampleStatement "a") := hs
        exact (List.mem_replicate.mp this).2
      rw [hs'] at hinv
      exact absurd hinv (by decide)

/-- C2 witness: a valid conversation extracts to its parsed requirements. -/
theorem extraction_failure_characterization_witness :
    extractRequirements sampleConv = .ok (parseStatements sampleConv) := by
  rcases (extraction_failure_characterization sampleConv).2 with h | ⟨e, he⟩
  · exact h
  · exact absurd ((extraction_failure_characterization sampleConv).1.mp ⟨e, he⟩) (by decide)

/- ## Claim C7 -/

/-- Entity extraction only ever returns entries of the keyword table. -/
theorem extractEntities_subset (text : String) :
    extractEntities text ⊆ technicalKeywords := by
  unfold extractEntities
  have main : ∀ (ks acc : List String), acc ⊆ technicalKeywords →
      (∀ k ∈ ks, k ∈ technicalKeywords) →
      ks.foldl (fun acc k => if hasSub (lowerS text) k then acc ++ [k] else acc) acc ⊆
        technicalKeywords := by
    intro ks
    induction ks with
    | nil => intro acc h _; simpa using h
    | cons k ks ih =>
      intro acc hacc hks
      simp only [List.foldl_cons]
      by_cases h : hasSub (lowerS text) k
      · simp only [h, if_true]
        refine ih _ ?_ (fun x hx => hks x (List.mem_cons_of_mem _ hx))
        intro x hx
        rcases List.mem_append.mp hx with hx | hx
        · exact hacc hx
        · rw [List.mem_singleton] at hx
          exact hx ▸ hks k (List.mem_cons_self _ _)
      · simp only [h, if_false]
        exact ih acc hacc (fun x hx => hks x (List.mem_cons_of_mem _ hx))
  exact main technicalKeywords [] (by simp) (fun k hk => hk)

/-- The set-union accumulator stays inside any common bound. -/
theorem setUnion_subset {acc new bound : List String}
    (h1 : acc ⊆ bound) (h2 : new ⊆ bound) : setUnion acc new ⊆ bound := by
  unfold setUnion
  induction new generalizing acc with
  | nil => simpa using h1
  | cons e rest ih =>
    simp only [List.foldl_cons]
    have he : e ∈ bound := h2 (List.mem_cons_self _ _)
    have hrest : rest ⊆ bound := fun x hx => h2 (List.mem_cons_of_mem _ hx)
    by_cases h : acc.contains e
    · simp only [h, if_true]
      exact ih h1 hrest
    · simp only [h, if_false]
      refine ih ?_ hrest
      intro x hx
      rcases List.mem_append.mp hx with hx | hx
      · exact h1 hx
      · rw [List.mem_singleton] at hx
        exact hx ▸ he

/-- One parse step keeps the entity accumulator inside the vocabulary. -/
theorem parseStep_entities_subset (acc : ParseAcc) (s : Statement)
    (h : acc.entities ⊆ technicalKeywords) :
    (parseStep acc s).entities ⊆ technicalKeywords := by
  unfold parseStep
  cases hst : s.statement_type with
  | none => exact setUnion_subset h (extractEntities_subset _)
  | some t =>
    cases t <;> exact setUnion_subset h (extractEntities_subset _)

/-- The full parse keeps the entity list inside the vocabulary. -/
theorem parse_entities_subset (conv : Conversation) :
    (parseStatements conv).extracted_entities ⊆ technicalKeywords := by
  have main : ∀ (l : List Statement) (acc : ParseAcc),
      acc.entities ⊆ technicalKeywords →
      (l.foldl parseStep acc).entities ⊆ technicalKeywords := by
    intro l
    induction l with
    | nil => intro acc h; simpa using h
    | cons s rest ih =>
      intro acc h
      exact ih _ (parseStep_entities_subset acc s h)
  exact main conv.statements ⟨[], [], [], [], []⟩ (by simp)

/-- C7 counterexample: the technical-keyword vocabulary has 34 entries,
not the 31 the claim asserts. -/
theorem vocabulary_size_counterexample :
    technicalKeywords.length = 34 ∧ technicalKeywords.length ≠ 31 := by decide

/-- C7 amended: for every non-empty conversation of valid statements,
parsing is total (the model is a function), returns an entity list inside
the fixed 34-entry technical vocabulary, and a confidence score inside
[0, 1] (so the Requirements constructor invariant never fires). -/
theorem extraction_entities_in_vocabulary (conv : Conversation)
    (h : conv.statements ≠ []) :
    (parseStatements conv).extracted_entities ⊆ technicalKeywords ∧
    0 ≤ (parseStatements conv).confidence_score ∧
    (parseStatements conv).confidence_score ≤ 1 ∧
    technicalKeywords.length = 34 := by
  refine ⟨parse_entities_subset conv, ?_, ?_, by decide⟩
  all_goals
    have hconf : (parseStatements conv).confidence_score =
        calculateParsingConfidence conv := rfl
    rw [hconf]
    unfold calculateParsingConfidence
    rw [foldl_count_eq_filter_length]
    have hpos : conv.statements.length > 0 := List.length_pos.mpr h
    rw [if_pos hpos]
    have hle : (conv.statements.filter (fun s =>
        intentKeywords.any (fun keyword => hasSub (lowerS s.content) keyword))).length ≤
        conv.statements.length := List.length_filter_le _ _
  · positivity
  · rw [div_le_one (by exact_mod_cast hpos)]
    simp only [Nat.zero_add]
    exact_mod_cast hle

/-- C7 witness: the sample conversation. -/
theorem extraction_entities_in_vocabulary_witness :
    (parseStatements sampleConv).extracted_entities ⊆ technicalKeywords ∧
    0 ≤ (parseStatements sampleConv).confidence_score ∧
    (parseStatements sampleConv).confidence_score ≤ 1 ∧
    technicalKeywords.length = 34 :=
  extraction_entities_in_vocabulary sampleConv (by decide)

/- ## Claim C9 -/

/-- Issues already accumulated survive the pattern-validation fold. -/
theorem mem_patternFold_of_mem_acc (arch : SystemArchitecture)
    (l : List String) (acc : List String) (x : String) (hx : x ∈ acc) :
    x ∈ l.foldl (validatePatternStep arch) acc := by
  induction l generalizing acc with
  | nil => simpa using hx
  | cons p rest ih =>
    simp only [List.foldl_cons]
    apply ih
    unfold validatePatternStep
    cases patternLookup p with
    | none => exact List.mem_append_left _ hx
    | some config => exact List.mem_append_left _ hx

/-- A declared pattern missing from the library always contributes its
unknown-pattern issue. -/
theorem unknown_pattern_issue_mem (arch : SystemArchitecture)
    (p : String) (hp : p ∈ arch.patterns) (hnone : patternLookup p = none) :
    ("Unknown architectural pattern: " ++ p) ∈ validatePatterns arch := by
  unfold validatePatterns
  have main : ∀ (l : List String) (acc : List String), p ∈ l →
      ("Unknown architectural pattern: " ++ p) ∈ l.foldl (validatePatternStep arch) acc := by
    intro l
    induction l with
    | nil => intro acc hmem; cases hmem
    | cons q rest ih =>
      intro acc hq
      simp only [List.foldl_cons]
      rcases List.mem_cons.mp hq with hq | hq
      · subst hq
        apply mem_patternFold_of_mem_acc
        unfold validatePatternStep
        rw [hnone]
        exact List.mem_append_right _ (List.mem_singleton_self _)
      · exact ih _ hq
  exact main arch.patterns [] hp

/-- A member of a non-empty list survives the default-pattern guard and
the deduplication. -/
theorem mem_ite_isEmpty_dedup (x : String) (l : List String) (hx : x ∈ l) :
    x ∈ (if l.isEmpty then ["layered"] else l).dedup := by
  have hne : l.isEmpty = false := by
    rw [List.isEmpty_eq_false]
    exact List.ne_nil_of_mem hx
  rw [hne]
  simp [List.mem_dedup, hx]

/-- C9: a truthy performance flag puts the string "caching" into the
inferred pattern list, "caching" is not a key of the static pattern
library, and comprehensive validation of the inferred architecture
therefore always reports the unknown-pattern issue. -/
theorem performance_forces_unknown_caching_pattern (req : SystemRequirements)
    (h : qget req.quality_attributes "performance" = true) :
    "caching" ∈ (inferArchitecture req).patterns ∧
    patternLookup "caching" = none ∧
    "Unknown architectural pattern: caching" ∈
      validateArchitectureComprehensive (inferArchitecture req) := by
  have hmem : "caching" ∈ (inferArchitecture req).patterns := by
    show "caching" ∈ suggestPatterns req
    unfold suggestPatterns
    rw [h]
    apply mem_ite_isEmpty_dedup
    simp
  refine ⟨hmem, by decide, ?_⟩
  have hpat : "Unknown architectural pattern: caching" ∈
      validatePatterns (inferArchitecture req) :=
    unknown_pattern_issue_mem (inferArchitecture req) "caching" hmem (by decide)
  unfold validateArchitectureComprehensive
  simp only [List.mem_append]
  exact Or.inl (Or.inr hpat)

/-- C9 witness: requirements whose quality attributes set performance. -/
theorem performance_forces_unknown_caching_pattern_witness :
    "caching" ∈ (inferArchitecture perfReq).patterns ∧
    patternLookup "caching" = none ∧
    "Unknown architectural pattern: caching" ∈
      validateArchitectureComprehensive (inferArchitecture perfReq) :=
  performance_forces_unknown_caching_pattern perfReq (by decide)

/- ## Claim C1 -/

/-- Inserting into the file dict never removes an existing key. -/
theorem dcontains_dinsert_of (d : List (String × String)) (k k' v : String)
    (h : dcontains d k = true) : dcontains (dinsert d k' v) k = true := by
  unfold dinsert
  split_ifs with hc
  · unfold dcontains at h ⊢
    rw [List.any_map, List.any_eq_true] at *
    obtain ⟨p, hp, hpk⟩ := h
    refine ⟨p, hp, ?_⟩
    by_cases hk' : p.1 == k'
    · have h1 : p.1 = k' := by simpa using hk'
      have h2 : p.1 = k := by simpa using hpk
      simp [Function.comp, hk', ← h1, h2]
    · simp [Function.comp, hk', hpk]
  · unfold dcontains at h ⊢
    rw [List.any_append, h, Bool.true_or]

/-- Inserting a key into the empty dict makes it present. -/
theorem dcontains_dinsert_nil (k v : String) : dcontains (dinsert [] k v) k = true := by
  unfold dinsert dcontains
  simp

/-- A dict containing a key is non-empty. -/
theorem isEmpty_false_of_dcontains (d : List (String × String)) (k : String)
    (h : dcontains d k = true) : d.isEmpty = false := by
  cases d
  · cases h
  · rfl

/-- The per-component file loop preserves keys of the file dict. -/
theorem dcontains_componentFold (language : String) (comps : List SystemComponent)
    (fs : List (String × String)) (k : String) (h : dcontains fs k = true) :
    dcontains (comps.foldl (fun fs component =>
      match generateComponentFile component language with
      | some fc => dinsert fs fc.1 fc.2
      | none => fs) fs) k = true := by
  induction comps generalizing fs with
  | nil => simpa using h
  | cons c rest ih =>
    simp only [List.foldl_cons]
    cases generateComponentFile c language with
    | some fc => exact ih _ (dcontains_dinsert_of fs k fc.1 fc.2 h)
    | none => exact ih _ h

/-- The per-component file loop is the identity for languages whose
component-file generator yields nothing. -/
theorem componentFold_none (language : String)
    (hlang : ∀ c : SystemComponent, generateComponentFile c language = none)
    (comps : List SystemComponent) (fs : List (String × String)) :
    comps.foldl (fun fs component =>
      match generateComponentFile component language with
      | some fc => dinsert fs fc.1 fc.2
      | none => fs) fs = fs := by
  induction comps generalizing fs with
  | nil => rfl
  | cons c rest ih =>
    simp only [List.foldl_cons, hlang c]
    exact ih fs

/-- The fallible GeneratedCode constructor succeeds when the entry point
is a key of a file map for a non-blank language. -/
theorem mkGeneratedCode_ok (language framework : String) (files : List (String × String))
    (deps : List String) (entry : String) (bc rc : List String)
    (htrim : ¬ trimS language = "") (hcont : dcontains files entry = true) :
    mkGeneratedCode language framework files deps entry bc rc =
      .ok ⟨language, framework, files, deps, entry, bc, rc⟩ := by
  unfold mkGeneratedCode
  rw [if_neg htrim, if_neg (by rw [isEmpty_false_of_dcontains files entry hcont]; simp),
    if_neg (not_not_intro hcont)]

/-- Generation for a language whose default framework has a template body
succeeds and the main file is a key of the produced file map. -/
theorem generateCode_template_ok (arch : SystemArchitecture) (language : String)
    (hsup : ¬ ¬ supportedLanguages.contains language = true)
    (htrim : ¬ trimS language = "")
    (htmpl : dlookup2 codeTemplates language (getDefaultFramework language) ≠ "") :
    generateCode arch language = .ok ⟨language, getDefaultFramework language,
      generateFiles arch language (getDefaultFramework language),
      extractDependencies language (getDefaultFramework language),
      getMainFilename language, getBuildCommands language, getRunCommands language⟩ ∧
    dcontains (generateFiles arch language (getDefaultFramework language))
      (getMainFilename language) = true := by
  have hfiles : dcontains (generateFiles arch language (getDefaultFramework language))
      (getMainFilename language) = true := by
    unfold generateFiles
    simp only [ne_eq]
    rw [if_pos htmpl]
    exact dcontains_componentFold language arch.components _ _
      (dcontains_dinsert_nil _ _)
  refine ⟨?_, hfiles⟩
  unfold generateCode
  rw [if_neg hsup]
  simp only [Option.getD_none]
  exact mkGeneratedCode_ok language (getDefaultFramework language) _ _ _ _ _ htrim hfiles

/-- Generation for a supported non-python language whose default
framework has no template body produces an empty file map, so the
GeneratedCode constructor raises. -/
theorem generateCode_no_template (arch : SystemArchitecture) (language : String)
    (hsup : ¬ ¬ supportedLanguages.contains language = true)
    (htrim : ¬ trimS language = "")
    (hpy : (language == "python") = false)
    (htmpl : dlookup2 codeTemplates language (getDefaultFramework language) = "") :
    generateCode arch language =
      .error (.valueError "Generated code must contain at least one file") := by
  have hcomp : ∀ c : SystemComponent, generateComponentFile c language = none := by
    intro c
    unfold generateComponentFile
    simp [hpy]
  have hfiles : generateFiles arch language (getDefaultFramework language) = [] := by
    unfold generateFiles
    rw [htmpl]
    simp only [ne_eq, not_true_eq_false, if_false]
    exact componentFold_none language hcomp arch.components []
  unfold generateCode
  rw [if_neg hsup]
  simp only [Option.getD_none]
  rw [hfiles]
  unfold mkGeneratedCode
  rw [if_neg htrim]
  rfl

/-- C1 counterexample: for the default-component architecture and the
supported language "go", generation does not return a GeneratedCode at
all: the file map is empty and construction raises ValueError. -/
theorem generate_entry_point_counterexample :
    generateCode sampleArch "go" =
      .error (.valueError "Generated code must contain at least one file") := by rfl

/-- C1 amended: for every architecture, generation for python and rust
(default frameworks fastapi and axum) returns a GeneratedCode whose
entry point is a key of its own file map; for go, typescript, java and
cpp no template body exists, the file map stays empty, and construction
fails with ValueError instead of returning a GeneratedCode. -/
theorem generate_entry_point_amended (arch : SystemArchitecture) :
    (∃ gc, generateCode arch "python" = .ok gc ∧ gc.entry_point = "main.py" ∧
      dcontains gc.files gc.entry_point = true) ∧
    (∃ gc, generateCode arch "rust" = .ok gc ∧ gc.entry_point = "main.rs" ∧
      dcontains gc.files gc.entry_point = true) ∧
    generateCode arch "go" =
      .error (.valueError "Generated code must contain at least one file") ∧
    generateCode arch "typescript" =
      .error (.valueError "Generated code must contain at least one file") ∧
    generateCode arch "java" =
      .error (.valueError "Generated code must contain at least one file") ∧
    generateCode arch "cpp" =
      .error (.valueError "Generated code must contain at least one file") := by
  refine ⟨?_, ?_, ?_, ?_, ?_, ?_⟩
  · obtain ⟨heq, hcont⟩ := generateCode_template_ok arch "python"
      (by decide) (by decide) (by decide)
    exact ⟨_, heq, rfl, hcont⟩
  · obtain ⟨heq, hcont⟩ := generateCode_template_ok arch "rust"
      (by decide) (by decide) (by decide)
    exact ⟨_, heq, rfl, hcont⟩
  · exact generateCode_no_template arch "go" (by decide) (by decide) (by decide) (by decide)
  · exact generateCode_no_template arch "typescript"
      (by decide) (by decide) (by decide) (by decide)
  · exact generateCode_no_template arch "java" (by decide) (by decide) (by decide) (by decide)
  · exact generateCode_no_template arch "cpp" (by decide) (by decide) (by decide) (by decide)


/- ## Claim C4 -/

/-- Boolean any is monotone under appending on the right. -/
theorem any_append_left {α : Type} (p : α → Bool) (l s : List α) (h : l.any p = true) :
    (l ++ s).any p = true := by
  rw [List.any_append, h, Bool.true_or]

/-- Appending a matching element makes any true. -/
theorem any_append_singleton {α : Type} (p : α → Bool) (l : List α) (c : α)
    (h : p c = true) : (l ++ [c]).any p = true := by
  rw [List.any_append]
  simp [h]

/-- Component-type presence is monotone under appending. -/
theorem hasCompType_append_left (l s : List SystemComponent) (t : String)
    (h : hasCompType l t = true) : hasCompType (l ++ s) t = true :=
  any_append_left _ l s h

/-- Appending a component of the wanted type establishes presence. -/
theorem hasCompType_append_singleton (l : List SystemComponent) (c : SystemComponent)
    (t : String) (h : (c.component_type == t) = true) :
    hasCompType (l ++ [c]) t = true :=
  any_append_singleton _ l c h

/-- String-list containment is monotone under appending. -/
theorem contains_append_left (l s : List String) (x : String)
    (h : l.contains x = true) : (l ++ s).contains x = true := by
  simp_all

/-- Appending an element establishes containment. -/
theorem contains_append_self (l : List String) (x : String) :
    (l ++ [x]).contains x = true := by
  simp

/-- Shape of the cache step: it only appends components. -/
theorem addCache_shape (a : SystemArchitecture) :
    ∃ s, addCache a = { a with components := a.components ++ s } := by
  unfold addCache
  split_ifs
  · exact ⟨[], by simp⟩
  · exact ⟨[cacheComponent], rfl⟩

/-- Shape of the load-balancer step. -/
theorem addLoadBalancer_shape (a : SystemArchitecture) :
    ∃ s, addLoadBalancer a = { a with components := a.components ++ s } := by
  unfold addLoadBalancer
  split_ifs
  · exact ⟨[], by simp⟩
  · exact ⟨[loadBalancerComponent], rfl⟩
  · exact ⟨[], by simp⟩

/-- Shape of the pattern step: it only appends patterns. -/
theorem addMicroservicesPattern_shape (a : SystemArchitecture) :
    ∃ t, addMicroservicesPattern a = { a with patterns := a.patterns ++ t } := by
  unfold addMicroservicesPattern
  split_ifs
  · exact ⟨[], by simp⟩
  · exact ⟨["microservices"], rfl⟩

/-- Shape of the message-queue step. -/
theorem addMessageQueue_shape (a : SystemArchitecture) :
    ∃ s, addMessageQueue a = { a with components := a.components ++ s } := by
  unfold addMessageQueue
  split_ifs
  · exact ⟨[], by simp⟩
  · exact ⟨[messageQueueComponent], rfl⟩

/-- Shape of the auth step. -/
theorem addAuthService_shape (a : SystemArchitecture) :
    ∃ s, addAuthService a = { a with components := a.components ++ s } := by
  unfold addAuthService
  split_ifs
  · exact ⟨[], by simp⟩
  · exact ⟨[authComponent], rfl⟩

/-- Shape of the gateway step. -/
theorem addApiGateway_shape (a : SystemArchitecture) :
    ∃ s, addApiGateway a = { a with components := a.components ++ s } := by
  unfold addApiGateway
  split_ifs
  · exact ⟨[], by simp⟩
  · exact ⟨[gatewayComponent], rfl⟩

/-- The scalability pass only appends components and patterns. -/
theorem scal_shape (a : SystemArchitecture) :
    ∃ s t, optimizeForScalability a =
      { a with components := a.components ++ s, patterns := a.patterns ++ t } := by
  obtain ⟨t, h1⟩ := addMicroservicesPattern_shape a
  obtain ⟨s, h2⟩ := addMessageQueue_shape (addMicroservicesPattern a)
  exact ⟨s, t, by unfold optimizeForScalability; rw [h2, h1]⟩

/-- The security pass only appends components. -/
theorem sec_shape (a : SystemArchitecture) :
    ∃ s, optimizeForSecurity a = { a with components := a.components ++ s } := by
  obtain ⟨s1, h1⟩ := addAuthService_shape a
  obtain ⟨s2, h2⟩ := addApiGateway_shape (addAuthService a)
  refine ⟨s1 ++ s2, ?_⟩
  unfold optimizeForSecurity
  rw [h2, h1]
  simp [List.append_assoc]

/-- The performance pass only appends components. -/
theorem perf_shape (a : SystemArchitecture) :
    ∃ s, optimizeForPerformance a = { a with components := a.components ++ s } := by
  obtain ⟨s1, h1⟩ := addCache_shape a
  obtain ⟨s2, h2⟩ := addLoadBalancer_shape (addCache a)
  refine ⟨s1 ++ s2, ?_⟩
  unfold optimizeForPerformance
  rw [h2, h1]
  simp [List.append_assoc]

/-- Any-predicates survive the scalability pass. -/
theorem scal_preserves_any (p : SystemComponent → Bool) (a : SystemArchitecture)
    (h : a.components.any p = true) :
    (optimizeForScalability a).components.any p = true := by
  obtain ⟨s, t, hs⟩ := scal_shape a
  rw [hs]
  exact any_append_left _ _ _ h

/-- Any-predicates survive the security pass. -/
theorem sec_preserves_any (p : SystemComponent → Bool) (a : SystemArchitecture)
    (h : a.components.any p = true) :
    (optimizeForSecurity a).components.any p = true := by
  obtain ⟨s, hs⟩ := sec_shape a
  rw [hs]
  exact any_append_left _ _ _ h

/-- Any-predicates survive the performance pass. -/
theorem perf_preserves_any (p : SystemComponent → Bool) (a : SystemArchitecture)
    (h : a.components.any p = true) :
    (optimizeForPerformance a).components.any p = true := by
  obtain ⟨s, hs⟩ := perf_shape a
  rw [hs]
  exact any_append_left _ _ _ h

/-- The security pass never touches the pattern list. -/
theorem sec_preserves_patterns (a : SystemArchitecture) :
    (optimizeForSecurity a).patterns = a.patterns := by
  obtain ⟨s, hs⟩ := sec_shape a
  rw [hs]

/-- The performance pass never touches the pattern list. -/
theorem perf_preserves_patterns (a : SystemArchitecture) :
    (optimizeForPerformance a).patterns = a.patterns := by
  obtain ⟨s, hs⟩ := perf_shape a
  rw [hs]

/-- Pattern containment survives the scalability pass. -/
theorem scal_preserves_contains (a : SystemArchitecture) (x : String)
    (h : a.patterns.contains x = true) :
    (optimizeForScalability a).patterns.contains x = true := by
  obtain ⟨s, t, hs⟩ := scal_shape a
  rw [hs]
  exact contains_append_left _ _ _ h

/-- After the performance pass a cache component exists. -/
theorem perf_establishes_cache (a : SystemArchitecture) :
    hasCompType (optimizeForPerformance a).components "cache" = true := by
  have h1 : hasCompType (addCache a).components "cache" = true := by
    unfold addCache
    split_ifs with h
    · exact h
    · exact hasCompType_append_singleton _ _ _ (by decide)
  obtain ⟨s, hs⟩ := addLoadBalancer_shape (addCache a)
  unfold optimizeForPerformance
  rw [hs]
  exact hasCompType_append_left _ _ _ h1

/-- After the scalability pass a message queue exists. -/
theorem scal_establishes_queue (a : SystemArchitecture) :
    hasCompType (optimizeForScalability a).components "message_queue" = true := by
  unfold optimizeForScalability addMessageQueue
  split_ifs with h
  · exact h
  · exact hasCompType_append_singleton _ _ _ (by decide)

/-- After the scalability pass the microservices pattern is present. -/
theorem scal_establishes_pattern (a : SystemArchitecture) :
    (optimizeForScalability a).patterns.contains "microservices" = true := by
  have h1 : (addMicroservicesPattern a).patterns.contains "microservices" = true := by
    unfold addMicroservicesPattern
    split_ifs with h
    · exact h
    · exact contains_append_self _ _
  obtain ⟨s, hs⟩ := addMessageQueue_shape (addMicroservicesPattern a)
  unfold optimizeForScalability
  rw [hs]
  exact h1

/-- After the security pass an auth-named component exists. -/
theorem sec_establishes_auth (a : SystemArchitecture) :
    (optimizeForSecurity a).components.any
      (fun c => hasSub (lowerS c.name) "auth") = true := by
  have h1 : (addAuthService a).components.any
      (fun c => hasSub (lowerS c.name) "auth") = true := by
    unfold addAuthService
    split_ifs with h
    · exact h
    · exact any_append_singleton _ _ _ (by decide)
  obtain ⟨s, hs⟩ := addApiGateway_shape (addAuthService a)
  unfold optimizeForSecurity
  rw [hs]
  exact any_append_left _ _ _ h1

/-- After the security pass an API gateway exists. -/
theorem sec_establishes_gateway (a : SystemArchitecture) :
    hasCompType (optimizeForSecurity a).components "api_gateway" = true := by
  unfold optimizeForSecurity addApiGateway
  split_ifs with h
  · exact h
  · exact hasCompType_append_singleton _ _ _ (by decide)

/-- The cache step is the identity once a cache exists. -/
theorem addCache_id (a : SystemArchitecture)
    (hc : hasCompType a.components "cache" = true) : addCache a = a := by
  unfold addCache
  rw [if_pos hc]

/-- The load-balancer step is the identity once its guard is settled. -/
theorem addLoadBalancer_id (a : SystemArchitecture)
    (hguard : (a.components.filter (fun c => c.component_type == "service")).length > 1 →
      hasCompType a.components "load_balancer" = true) :
    addLoadBalancer a = a := by
  unfold addLoadBalancer
  split_ifs with h1 h2
  · rfl
  · exact absurd (hguard h1) h2
  · rfl

/-- The performance pass is the identity once a cache exists and the
load-balancer guard is settled. -/
theorem perf_id (a : SystemArchitecture)
    (hc : hasCompType a.components "cache" = true)
    (hguard : (a.components.filter (fun c => c.component_type == "service")).length > 1 →
      hasCompType a.components "load_balancer" = true) :
    optimizeForPerformance a = a := by
  unfold optimizeForPerformance
  rw [addCache_id a hc]
  exact addLoadBalancer_id a hguard

/-- The scalability pass is the identity once its additions exist. -/
theorem scal_id (a : SystemArchitecture)
    (hp : a.patterns.contains "microservices" = true)
    (hq : hasCompType a.components "message_queue" = true) :
    optimizeForScalability a = a := by
  unfold optimizeForScalability addMicroservicesPattern addMessageQueue
  rw [if_pos hp, if_pos hq]

/-- The security pass is the identity once its additions exist. -/
theorem sec_id (a : SystemArchitecture)
    (ha : a.components.any (fun c => hasSub (lowerS c.name) "auth") = true)
    (hg : hasCompType a.components "api_gateway" = true) :
    optimizeForSecurity a = a := by
  unfold optimizeForSecurity addAuthService addApiGateway
  rw [if_pos ha, if_pos hg]

/-- After one optimize with the performance flag, a cache exists. -/
theorem optimize_hasCache (req : SystemRequirements) (a : SystemArchitecture)
    (hp : qget req.quality_attributes "performance" = true) :
    hasCompType (optimizeArchitecture req a).components "cache" = true := by
  unfold optimizeArchitecture gateSecurity gateScalability gatePerformance
  rw [if_pos hp]
  split_ifs with h1 h2
  · exact sec_preserves_any _ _ (scal_preserves_any _ _ (perf_establishes_cache a))
  · exact sec_preserves_any _ _ (perf_establishes_cache a)
  · exact scal_preserves_any _ _ (perf_establishes_cache a)
  · exact perf_establishes_cache a

/-- After one optimize with the scalability flag, a message queue exists. -/
theorem optimize_hasQueue (req : SystemRequirements) (a : SystemArchitecture)
    (hs : qget req.quality_attributes "scalability" = true) :
    hasCompType (optimizeArchitecture req a).components "message_queue" = true := by
  unfold optimizeArchitecture gateSecurity gateScalability
  rw [if_pos hs]
  split_ifs with h1
  · exact sec_preserves_any _ _ (scal_establishes_queue _)
  · exact scal_establishes_queue _

/-- After one optimize with the scalability flag, the microservices
pattern is present. -/
theorem optimize_hasPattern (req : SystemRequirements) (a : SystemArchitecture)
    (hs : qget req.quality_attributes "scalability" = true) :
    (optimizeArchitecture req a).patterns.contains "microservices" = true := by
  unfold optimizeArchitecture gateSecurity gateScalability
  rw [if_pos hs]
  split_ifs with h1
  · rw [sec_preserves_patterns]
    exact scal_establishes_pattern _
  · exact scal_establishes_pattern _

/-- After one optimize with the security flag, an auth-named component
exists. -/
theorem optimize_hasAuth (req : SystemRequirements) (a : SystemArchitecture)
    (hs : qget req.quality_attributes "security" = true) :
    (optimizeArchitecture req a).components.any
      (fun c => hasSub (lowerS c.name) "auth") = true := by
  unfold optimizeArchitecture gateSecurity
  rw [if_pos hs]
  exact sec_establishes_auth _

/-- After one optimize with the security flag, an API gateway exists. -/
theorem optimize_hasGateway (req : SystemRequirements) (a : SystemArchitecture)
    (hs : qget req.quality_attributes "security" = true) :
    hasCompType (optimizeArchitecture req a).components "api_gateway" = true := by
  unfold optimizeArchitecture gateSecurity
  rw [if_pos hs]
  exact sec_establishes_gateway _

/-- On an architecture already carrying the scalability and security
additions, optimize reduces to its performance gate alone. -/
theorem optimize_on_stable (req : SystemRequirements) (x : SystemArchitecture)
    (hscal : qget req.quality_attributes "scalability" = true →
      x.patterns.contains "microservices" = true ∧
      hasCompType x.components "message_queue" = true)
    (hsec : qget req.quality_attributes "security" = true →
      x.components.any (fun c => hasSub (lowerS c.name) "auth") = true ∧
      hasCompType x.components "api_gateway" = true) :
    optimizeArchitecture req x = gatePerformance req x := by
  have hshape : ∃ s, (gatePerformance req x).components = x.components ++ s ∧
      (gatePerformance req x).patterns = x.patterns := by
    unfold gatePerformance
    split_ifs with h
    · obtain ⟨s, hs⟩ := perf_shape x
      exact ⟨s, by rw [hs], by rw [hs]⟩
    · exact ⟨[], by simp, rfl⟩
  obtain ⟨s0, hcomp0, hpat0⟩ := hshape
  have h2 : gateScalability req (gatePerformance req x) = gatePerformance req x := by
    unfold gateScalability
    split_ifs with h
    · obtain ⟨hpa, hmq⟩ := hscal h
      refine scal_id _ ?_ ?_
      · rw [hpat0]; exact hpa
      · rw [hcomp0]; exact hasCompType_append_left _ _ _ hmq
    · rfl
  have h3 : gateSecurity req (gatePerformance req x) = gatePerformance req x := by
    unfold gateSecurity
    split_ifs with h
    · obtain ⟨hau, hgw⟩ := hsec h
      refine sec_id _ ?_ ?_
      · rw [hcomp0]; exact any_append_left _ _ _ hau
      · rw [hcomp0]; exact hasCompType_append_left _ _ _ hgw
    · rfl
  unfold optimizeArchitecture
  rw [h2, h3]

/-- The second optimize collapses to at most the performance gate. -/
theorem optimize_second (req : SystemRequirements) (a : SystemArchitecture) :
    optimizeArchitecture req (optimizeArchitecture req a) =
      gatePerformance req (optimizeArchitecture req a) :=
  optimize_on_stable req (optimizeArchitecture req a)
    (fun h => ⟨optimize_hasPattern req a h, optimize_hasQueue req a h⟩)
    (fun h => ⟨optimize_hasAuth req a h, optimize_hasGateway req a h⟩)

/-- After one performance pass the load-balancer guard is settled. -/
theorem perf_guard_after (x : SystemArchitecture) :
    ((optimizeForPerformance x).components.filter
      (fun c => c.component_type == "service")).length > 1 →
    hasCompType (optimizeForPerformance x).components "load_balancer" = true := by
  unfold optimizeForPerformance addLoadBalancer
  split_ifs with h1 h2
  · intro _
    exact h2
  · intro _
    exact hasCompType_append_singleton _ _ _ (by decide)
  · intro hl
    exact absurd hl h1

/-- The performance pass is idempotent. -/
theorem perf_pass_idem (x : SystemArchitecture) :
    optimizeForPerformance (optimizeForPerformance x) = optimizeForPerformance x :=
  perf_id (optimizeForPerformance x) (perf_establishes_cache x) (perf_guard_after x)

/-- The performance gate is idempotent. -/
theorem gatePerformance_idem (req : SystemRequirements) (x : SystemArchitecture) :
    gatePerformance req (gatePerformance req x) = gatePerformance req x := by
  unfold gatePerformance
  split_ifs with h
  · exact perf_pass_idem x
  · rfl

/-- C4 counterexample: with performance and security flags on an
architecture holding a single service component, the second optimize
appends a LoadBalancer the first one did not, so optimize is not
idempotent. -/
theorem optimize_not_idempotent_counterexample :
    (optimizeArchitecture perfSecReq (optimizeArchitecture perfSecReq oneServiceArch)).components ≠
      (optimizeArchitecture perfSecReq oneServiceArch).components := by decide

/-- C4 amended: optimization is idempotent from the second application
onward: a third optimize with the same quality-attribute flags changes
nothing over the second.  (A single repeat is not idempotent: when
performance and security are both set, the security pass of the first run
adds a service-typed AuthenticationService, which can push the service
count past one and make the second run append a LoadBalancer.) -/
theorem optimize_idempotent_from_second (req : SystemRequirements) (a : SystemArchitecture) :
    optimizeArchitecture req (optimizeArchitecture req (optimizeArchitecture req a)) =
      optimizeArchitecture req (optimizeArchitecture req a) := by
  rw [optimize_second req (optimizeArchitecture req a), optimize_second req a,
    gatePerformance_idem]

/- ## Claim C10 -/

/-- Whitespace splitting distributes over an explicit space. -/
theorem wsTokensAux_append_space (x y : List Char) (acc : List Char) :
    wsTokensAux (x ++ ' ' :: y) acc = wsTokensAux x acc ++ wsTokensAux y [] := by
  induction x generalizing acc with
  | nil =>
    simp only [List.nil_append, wsTokensAux]
    rw [if_pos (by decide : (' ').isWhitespace = true)]
    split_ifs with h
    · simp
    · simp
  | cons c cs ih =>
    simp only [List.cons_append, wsTokensAux, List.append_eq]
    split_ifs with h1 h2
    · exact ih []
    · rw [ih []]
      simp
    · exact ih (c :: acc)

/-- The split is nonempty when the accumulator is nonempty. -/
theorem wsTokensAux_ne_nil_of_acc (l : List Char) (acc : List Char)
    (h : acc.isEmpty = false) : wsTokensAux l acc ≠ [] := by
  induction l generalizing acc with
  | nil => simp [wsTokensAux, h]
  | cons c cs ih =>
    simp only [wsTokensAux]
    split_ifs with h1 h2
    · rw [h2] at h
      cases h
    · simp
    · exact ih (c :: acc) (by simp)

/-- The split is nonempty when some character is not whitespace. -/
theorem wsTokensAux_ne_nil_of_content (l : List Char) (acc : List Char)
    (h : ∃ c ∈ l, c.isWhitespace = false) : wsTokensAux l acc ≠ [] := by
  induction l generalizing acc with
  | nil =>
    obtain ⟨d, hd, _⟩ := h
    cases hd
  | cons c cs ih =>
    simp only [wsTokensAux]
    split_ifs with h1 h2
    · apply ih []
      obtain ⟨d, hd, hdw⟩ := h
      rcases List.mem_cons.mp hd with rfl | hd
      · rw [h1] at hdw
        cases hdw
      · exact ⟨d, hd, hdw⟩
    · simp
    · exact wsTokensAux_ne_nil_of_acc cs (c :: acc) (by simp)

/-- Every produced token consists of non-whitespace characters. -/
theorem wsTokensAux_no_ws (l : List Char) (acc : List Char)
    (hacc : ∀ ch ∈ acc, ch.isWhitespace = false) :
    ∀ t ∈ wsTokensAux l acc, ∀ ch ∈ t.data, ch.isWhitespace = false := by
  induction l generalizing acc with
  | nil =>
    intro t ht
    simp only [wsTokensAux] at ht
    split_ifs at ht with h
    · cases ht
    · rw [List.mem_singleton] at ht
      subst ht
      intro ch hch
      exact hacc ch (List.mem_reverse.mp hch)
  | cons c cs ih =>
    intro t ht
    simp only [wsTokensAux] at ht
    split_ifs at ht with h1 h2
    · exact ih [] (by simp) t ht
    · rcases List.mem_cons.mp ht with rfl | ht
      · intro ch hch
        exact hacc ch (List.mem_reverse.mp hch)
      · exact ih [] (by simp) t ht
    · refine ih (c :: acc) ?_ t ht
      intro ch hch
      rcases List.mem_cons.mp hch with rfl | hch
      · simpa using h1
      · exact hacc ch hch

/-- Substring occurrence is preserved by prepending. -/
theorem hasSubL_append_right (n x y : List Char) (h : hasSubL n y = true) :
    hasSubL n (x ++ y) = true := by
  induction x with
  | nil => simpa using h
  | cons c cs ih =>
    simp only [List.cons_append, hasSubL, List.append_eq]
    rw [ih, Bool.or_true]

/-- Character decomposition of an auto-fix issue string. -/
theorem data_component_issue (name tail : String) :
    (("Component " ++ name) ++ tail).data =
      "Component".data ++ ' ' :: (name.data ++ tail.data) := by
  rw [String.data_append, String.data_append]
  rw [show "Component ".data = "Component".data ++ [' '] from by decide]
  simp [List.append_assoc]

/-- Token decomposition of an auto-fix issue string. -/
theorem pySplitWs_issue (name w : String) (rest : List String)
    (hsplit : pySplitWs name = w :: rest) (tail tailWord : String) (toks : List String)
    (htail : tail.data = ' ' :: tailWord.data)
    (htoks : wsTokensAux tailWord.data [] = toks) :
    pySplitWs (("Component " ++ name) ++ tail) =
      "Component" :: ((w :: rest) ++ toks) := by
  unfold pySplitWs
  rw [data_component_issue, htail]
  rw [wsTokensAux_append_space "Component".data (name.data ++ ' ' :: tailWord.data) []]
  rw [wsTokensAux_append_space name.data tailWord.data []]
  rw [show wsTokensAux "Component".data [] = ["Component"] from by decide]
  rw [show wsTokensAux name.data [] = w :: rest from hsplit, htoks]
  simp

/-- The first-match in-place update leaves the list unchanged when no
name matches. -/
theorem updateFirstNamed_id (w : String) (f : SystemComponent → SystemComponent)
    (l : List SystemComponent) (h : ∀ d ∈ l, d.name ≠ w) :
    updateFirstNamed w f l = l := by
  induction l with
  | nil => rfl
  | cons c rest ih =>
    unfold updateFirstNamed
    rw [if_neg (h c (List.mem_cons_self _ _))]
    rw [ih (fun d hd => h d (List.mem_cons_of_mem _ hd))]

/-- The first-match in-place update rewrites exactly the first match. -/
theorem updateFirstNamed_found (w : String) (f : SystemComponent → SystemComponent)
    (pre : List SystemComponent) (d : SystemComponent) (post : List SystemComponent)
    (hd : d.name = w) (hpre : ∀ e ∈ pre, e.name ≠ w) :
    updateFirstNamed w f (pre ++ d :: post) = pre ++ f d :: post := by
  induction pre with
  | nil =>
    simp only [List.nil_append]
    unfold updateFirstNamed
    rw [if_pos hd]
  | cons e pres ih =>
    simp only [List.cons_append]
    unfold updateFirstNamed
    rw [if_neg (hpre e (List.mem_cons_self _ _))]
    rw [ih (fun e' he' => hpre e' (List.mem_cons_of_mem _ he'))]

/-- A missing-responsibilities issue resolves to a first-match update on
the second whitespace token. -/
theorem fixIssue_responsibilities (comps : List SystemComponent) (name w : String)
    (rest : List String) (hsplit : pySplitWs name = w :: rest) :
    fixIssue comps (("Component " ++ name) ++ " has no responsibilities") =
      updateFirstNamed w (fun comp => { comp with
        responsibilities := ["Handle " ++ comp.component_type ++ " operations"] }) comps := by
  have hs : hasSub (("Component " ++ name) ++ " has no responsibilities")
      "has no responsibilities" = true := by
    unfold hasSub
    rw [String.data_append]
    exact hasSubL_append_right _ _ _ (by decide)
  unfold fixIssue
  rw [if_pos hs]
  rw [pySplitWs_issue name w rest hsplit " has no responsibilities"
    "has no responsibilities" ["has", "no", "responsibilities"] (by decide) (by decide)]
  rfl

/-- A missing-type issue — when the name itself does not contain the
responsibilities phrase — resolves to a first-match update on the second
whitespace token. -/
theorem fixIssue_type (comps : List SystemComponent) (name w : String)
    (rest : List String) (hsplit : pySplitWs name = w :: rest)
    (hnr : hasSub (("Component " ++ name) ++ " has no type")
      "has no responsibilities" = false) :
    fixIssue comps (("Component " ++ name) ++ " has no type") =
      updateFirstNamed w (fun comp => { comp with component_type := "service" }) comps := by
  have hs : hasSub (("Component " ++ name) ++ " has no type") "has no type" = true := by
    unfold hasSub
    rw [String.data_append]
    exact hasSubL_append_right _ _ _ (by decide)
  unfold fixIssue
  rw [if_neg (by rw [hnr]; simp), if_pos hs]
  rw [pySplitWs_issue name w rest hsplit " has no type"
    "has no type" ["has", "no", "type"] (by decide) (by decide)]
  rfl

/-- C10: auto-fix identifies the component to repair by the second
whitespace-separated token of the issue message.  For a component whose
name contains whitespace (and, being a valid name, also a non-blank
character), that token is a proper prefix word and never equals the
component's own name, so the component itself is never repaired: if no
component carries the token as its exact name the architecture is
unchanged, and otherwise the first such component is modified instead.
The same mechanism drives the has-no-type branch (shown here under the
side condition that the name does not itself contain the
responsibilities phrase, which would capture the first branch). -/
theorem auto_fix_whitespace_name (arch : SystemArchitecture) (c : SystemComponent)
    (hc : c ∈ arch.components)
    (hws : ∃ ch ∈ c.name.data, ch.isWhitespace = true)
    (w : String) (rest : List String)
    (hsplit : pySplitWs c.name = w :: rest) :
    c.name ≠ w ∧
    ((∀ d ∈ arch.components, d.name ≠ w) →
      autoFixArchitectureIssues arch
        ["Component " ++ c.name ++ " has no responsibilities"] = arch ∧
      (hasSub ("Component " ++ c.name ++ " has no type")
          "has no responsibilities" = false →
        autoFixArchitectureIssues arch ["Component " ++ c.name ++ " has no type"] = arch)) ∧
    (∀ pre d post, arch.components = pre ++ d :: post → d.name = w →
      (∀ e ∈ pre, e.name ≠ w) →
      (autoFixArchitectureIssues arch
          ["Component " ++ c.name ++ " has no responsibilities"]).components =
        pre ++ { d with responsibilities :=
          ["Handle " ++ d.component_type ++ " operations"] } :: post ∧
      c ∈ (autoFixArchitectureIssues arch
          ["Component " ++ c.name ++ " has no responsibilities"]).components ∧
      (hasSub ("Component " ++ c.name ++ " has no type")
          "has no responsibilities" = false →
        (autoFixArchitectureIssues arch
            ["Component " ++ c.name ++ " has no type"]).components =
          pre ++ { d with component_type := "service" } :: post)) := by
  have hw_now : ∀ ch ∈ w.data, ch.isWhitespace = false := by
    intro ch hch
    refine wsTokensAux_no_ws c.name.data [] (by simp) w ?_ ch hch
    rw [show wsTokensAux c.name.data [] = w :: rest from hsplit]
    exact List.mem_cons_self _ _
  have hneq : c.name ≠ w := by
    intro he
    obtain ⟨ch, hch, hchw⟩ := hws
    have hf : ch.isWhitespace = false := hw_now ch (by rw [← he]; exact hch)
    rw [hf] at hchw
    cases hchw
  have hfix1 : autoFixArchitectureIssues arch
      ["Component " ++ c.name ++ " has no responsibilities"] =
      { arch with
        components :=
          updateFirstNamed w
            (fun comp =>
              { comp with
                responsibilities := ["Handle " ++ comp.component_type ++ " operations"] })
            arch.components } := by
    unfold autoFixArchitectureIssues
    simp only [List.foldl_cons, List.foldl_nil]
    rw [fixIssue_responsibilities arch.components c.name w rest hsplit]
  have hfix2 : hasSub ("Component " ++ c.name ++ " has no type")
      "has no responsibilities" = false →
      autoFixArchitectureIssues arch ["Component " ++ c.name ++ " has no type"] =
      { arch with
        components :=
          updateFirstNamed w
            (fun comp => { comp with component_type := "service" })
            arch.components } := by
    intro hnr
    unfold autoFixArchitectureIssues
    simp only [List.foldl_cons, List.foldl_nil]
    rw [fixIssue_type arch.components c.name w rest hsplit hnr]
  refine ⟨hneq, ?_, ?_⟩
  · intro hnone
    constructor
    · rw [hfix1, updateFirstNamed_id w _ arch.components hnone]
    · intro hnr
      rw [hfix2 hnr, updateFirstNamed_id w _ arch.components hnone]
  · intro pre d post hcomps hd hpre
    have hcd : c ≠ d := fun he => hneq (by rw [he]; exact hd)
    refine ⟨?_, ?_, ?_⟩
    · rw [hfix1]
      show updateFirstNamed w _ arch.components = _
      rw [hcomps]
      exact updateFirstNamed_found w _ pre d post hd hpre
    · rw [hfix1]
      show c ∈ updateFirstNamed w _ arch.components
      rw [hcomps, updateFirstNamed_found w _ pre d post hd hpre]
      have hc' : c ∈ pre ++ d :: post := hcomps ▸ hc
      rcases List.mem_append.mp hc' with h | h
      · exact List.mem_append_left _ h
      · rcases List.mem_cons.mp h with rfl | h
        · exact absurd rfl hcd
        · exact List.mem_append_right _ (List.mem_cons_of_mem _ h)
    · intro hnr
      rw [hfix2 hnr]
      show updateFirstNamed w _ arch.components = _
      rw [hcomps]
      exact updateFirstNamed_found w _ pre d post hd hpre

/-- C10 witness: the issue names "User Service", auto-fix repairs the
sibling component named "User" instead. -/
theorem auto_fix_whitespace_name_witness :
    (autoFixArchitectureIssues spacedArch
        ["Component " ++ spacedComponent.name ++ " has no responsibilities"]).components =
      [spacedComponent] ++ { userComponent with responsibilities :=
        ["Handle " ++ userComponent.component_type ++ " operations"] } :: [] ∧
    spacedComponent ∈ (autoFixArchitectureIssues spacedArch
        ["Component " ++ spacedComponent.name ++ " has no responsibilities"]).components ∧
    (hasSub ("Component " ++ spacedComponent.name ++ " has no type")
        "has no responsibilities" = false →
      (autoFixArchitectureIssues spacedArch
          ["Component " ++ spacedComponent.name ++ " has no type"]).components =
        [spacedComponent] ++ { userComponent with component_type := "service" } :: []) :=
  (auto_fix_whitespace_name spacedArch spacedComponent (by decide)
    ⟨' ', by decide, by decide⟩ "User" ["Service"] (by decide)).2.2
    [spacedComponent] userComponent [] rfl rfl (by decide)
